import Mathlib

/-!
# govmm demo: a shallow embedding of `demo.go`

The program opens `/dev/kvm`, creates one VM with one vCPU, copies a 12-byte
payload into a mapped page, initialises the registers and then resumes the
vCPU in a loop.  Everything the kernel answers is an input of the model
(`Env`); everything the program does is recorded as a list of `Event`s.

Machine words: `uintptr` and `uint64` are natural numbers below `2 ^ 64`,
`int` is an integer; conversions reduce modulo `2 ^ 64` explicitly.
-/

namespace Govmm

/-! ## Machine words -/

/-- Number of values of a 64-bit platform word. -/
def WORD : Nat := 2 ^ 64

/-- Go conversion `uintptr(a)` of a signed `int`: two's complement, 64 bits. -/
def uintptrOfInt (a : Int) : Nat := (a % (2 ^ 64 : Int)).toNat

/-- Go conversion `int(v)` of a `uintptr`: the same 64 bits read as a signed number. -/
def intOfUintptr (v : Nat) : Int :=
  if v % 2 ^ 64 < 2 ^ 63 then Int.ofNat (v % 2 ^ 64) else Int.ofNat (v % 2 ^ 64) - 2 ^ 64

/-- Source `trickGo`: `return uintptr(a)`. -/
def trickGo (a : Int) : Nat := uintptrOfInt a

/-! ## Struct declarations (field values) -/

/-- Source `kvm_userspace_memory_region`. -/
structure kvm_userspace_memory_region where
  slot : Nat
  flags : Nat
  guest_phys_addr : Nat
  memory_size : Nat
  userspace_addr : Nat
  deriving DecidableEq, Repr

/-- Source `kvm_segment`. -/
structure kvm_segment where
  base : Nat
  limit : Nat
  selector : Nat
  tpe : Nat
  present : Nat
  dpl : Nat
  db : Nat
  s : Nat
  l : Nat
  g : Nat
  avl : Nat
  unusable : Nat
  padding : Nat
  deriving DecidableEq, Repr

/-- Source `kvm_dtable`; `padding` is `[3]uint16`. -/
structure kvm_dtable where
  base : Nat
  limit : Nat
  padding : List Nat
  deriving DecidableEq, Repr

/-- Source `KVM_NR_INTERRUPTS`. -/
def KVM_NR_INTERRUPTS : Nat := 256

/-- Source `kvm_sregs`; `interrupt_bitmap` is `[(KVM_NR_INTERRUPTS + 63) / 64]uint64`. -/
structure kvm_sregs where
  cs : kvm_segment
  ds : kvm_segment
  es : kvm_segment
  fs : kvm_segment
  gs : kvm_segment
  ss : kvm_segment
  tr : kvm_segment
  ldt : kvm_segment
  gdt : kvm_dtable
  idt : kvm_dtable
  _cr0 : Nat
  cr2 : Nat
  cr3 : Nat
  cr4 : Nat
  cr8 : Nat
  efer : Nat
  apic_base : Nat
  interrupt_bitmap : List Nat
  deriving DecidableEq, Repr

/-- Source `kvm_regs`. -/
structure kvm_regs where
  rax : Nat
  rbx : Nat
  rcx : Nat
  rdx : Nat
  rsi : Nat
  rdi : Nat
  rsp : Nat
  rbp : Nat
  r8 : Nat
  r9 : Nat
  r10 : Nat
  r11 : Nat
  r12 : Nat
  r13 : Nat
  r14 : Nat
  r15 : Nat
  rip : Nat
  rflags : Nat
  deriving DecidableEq, Repr

/-- Go zero value of `kvm_segment`. -/
def kvm_segment.zero : kvm_segment :=
  ⟨0, 0, 0, 0, 0, 0, 0, 0, 0, 0, 0, 0, 0⟩

/-- Go zero value of `kvm_dtable`. -/
def kvm_dtable.zero : kvm_dtable := ⟨0, 0, [0, 0, 0]⟩

/-- Go zero value of `kvm_sregs` (`sregs := kvm_sregs{}`). -/
def kvm_sregs.zero : kvm_sregs :=
  { cs := kvm_segment.zero, ds := kvm_segment.zero, es := kvm_segment.zero,
    fs := kvm_segment.zero, gs := kvm_segment.zero, ss := kvm_segment.zero,
    tr := kvm_segment.zero, ldt := kvm_segment.zero,
    gdt := kvm_dtable.zero, idt := kvm_dtable.zero,
    _cr0 := 0, cr2 := 0, cr3 := 0, cr4 := 0, cr8 := 0, efer := 0, apic_base := 0,
    interrupt_bitmap := List.replicate ((KVM_NR_INTERRUPTS + 63) / 64) 0 }

/-! ## Struct layout (byte sizes)

Go lays a struct out in declared order: each field starts at the next multiple
of its alignment, and the struct's size is rounded up to its own alignment,
which is the largest alignment of a field. -/

/-- Size and alignment of a type, in bytes. -/
structure Layout where
  size : Nat
  align : Nat
  deriving DecidableEq, Repr

/-- Round `n` up to the next multiple of `a`. -/
def alignUp (n a : Nat) : Nat := (n + a - 1) / a * a

def Layout.uint8 : Layout := ⟨1, 1⟩
def Layout.uint16 : Layout := ⟨2, 2⟩
def Layout.uint32 : Layout := ⟨4, 4⟩
def Layout.uint64 : Layout := ⟨8, 8⟩
/-- The platform word is 8 bytes. -/
def Layout.uintptr : Layout := ⟨8, 8⟩

/-- Layout of `[n]t`. -/
def Layout.array (n : Nat) (t : Layout) : Layout := ⟨n * t.size, t.align⟩

/-- Offset after placing the fields one after the other, and largest alignment seen. -/
def Layout.place : List Layout → Nat → Nat → Nat × Nat
  | [], off, al => (off, al)
  | f :: fs, off, al => Layout.place fs (alignUp off f.align + f.size) (max al f.align)

/-- Layout of a struct with the given fields in declared order. -/
def Layout.struct (fields : List Layout) : Layout :=
  let p := Layout.place fields 0 1
  ⟨alignUp p.1 p.2, p.2⟩

/-- Layout of source `kvm_userspace_memory_region`. -/
def kvm_userspace_memory_region.layout : Layout :=
  Layout.struct [Layout.uint32, Layout.uint32, Layout.uintptr, Layout.uintptr, Layout.uintptr]

/-- Layout of source `kvm_segment`. -/
def kvm_segment.layout : Layout :=
  Layout.struct [Layout.uint64, Layout.uint32, Layout.uint16,
    Layout.uint8, Layout.uint8, Layout.uint8, Layout.uint8, Layout.uint8,
    Layout.uint8, Layout.uint8, Layout.uint8, Layout.uint8, Layout.uint8]

/-- Layout of source `kvm_dtable`. -/
def kvm_dtable.layout : Layout :=
  Layout.struct [Layout.uint64, Layout.uint16, Layout.array 3 Layout.uint16]

/-- Layout of source `kvm_sregs`. -/
def kvm_sregs.layout : Layout :=
  Layout.struct [kvm_segment.layout, kvm_segment.layout, kvm_segment.layout,
    kvm_segment.layout, kvm_segment.layout, kvm_segment.layout,
    kvm_segment.layout, kvm_segment.layout,
    kvm_dtable.layout, kvm_dtable.layout,
    Layout.uint64, Layout.uint64, Layout.uint64, Layout.uint64, Layout.uint64,
    Layout.uint64, Layout.uint64,
    Layout.array ((KVM_NR_INTERRUPTS + 63) / 64) Layout.uint64]

/-- Layout of source `kvm_regs`: eighteen `uint64` fields. -/
def kvm_regs.layout : Layout :=
  Layout.struct (List.replicate 18 Layout.uint64)

/-! ## Constants -/

/-- Source `code`: the guest payload. -/
def code : List Nat :=
  [0xba, 0xf8, 0x03,
   0x00, 0xd8,
   0x04, 48,
   0xee,
   0xb0, 10,
   0xee,
   0xf4]

def KVM_GET_API_VERSION : Nat := 44544
def KVM_CREATE_VM : Nat := 44545
def KVM_GET_VCPU_MMAP_SIZE : Nat := 44548
def KVM_CREATE_VCPU : Nat := 44609
def KVM_RUN : Nat := 44672
def KVM_SET_USER_MEMORY_REGION : Nat := 1075883590
/-- Declared `int(-2126991741)` in the source, unlike its siblings. -/
def KVM_GET_SREGS : Int := -2126991741
def KVM_SET_SREGS : Nat := 1094233732
def KVM_SET_REGS : Nat := 1083223682

/-- Direction bits of a command code in the kernel's encoding. -/
inductive IocDir
  | none
  | write
  | read
  deriving DecidableEq, Repr

def IocDir.bits : IocDir → Nat
  | .none => 0
  | .write => 1
  | .read => 2

/-- The kernel ABI's command encoding as the specification words it:
`(dir << 30) | (size << 16) | (0xAE << 8) | nr`. -/
def abiEncoding (dir : IocDir) (size nr : Nat) : Nat :=
  (dir.bits <<< 30) ||| (size <<< 16) ||| (0xAE <<< 8) ||| nr

/-! ## Host memory and `memcpy` -/

/-- Byte-addressed memory of the process: the byte at each address, and which addresses
may be loaded from and stored to. A load or store elsewhere is a fault (`SIGSEGV`). -/
structure Mem where
  byte : Nat → Nat
  readable : Nat → Bool
  writable : Nat → Bool

/-- Write of one byte (`*d = b`) at an address that may be stored to. -/
def Mem.store (m : Mem) (a b : Nat) : Mem :=
  { m with byte := fun x => if x = a then b else m.byte x }

/-- How a call ends: it returns, it panics with a value, or the process dies on a fault
at an address. -/
inductive CopyOutcome
  | returned
  | panicked (msg : String)
  | faulted (addr : Nat)
  deriving DecidableEq, Repr

/-- Memory after a call, and how the call ended. -/
structure CopyResult where
  mem : Mem
  outcome : CopyOutcome

/-- The `for` loop of source `memcpy` with `n` iterations left and counter `i`:
each iteration does `*(dest + i) = *(src + i)` in 64-bit pointer arithmetic, the load first,
then the store; either may fault. -/
def memcpyLoop (dest src : Nat) : Nat → Nat → Mem → CopyResult
  | 0, _, m => ⟨m, CopyOutcome.returned⟩
  | n + 1, i, m =>
    if m.readable ((src + i) % WORD) = false then ⟨m, CopyOutcome.faulted ((src + i) % WORD)⟩
    else if m.writable ((dest + i) % WORD) = false then
      ⟨m, CopyOutcome.faulted ((dest + i) % WORD)⟩
    else memcpyLoop dest src n (i + 1) (m.store ((dest + i) % WORD) (m.byte ((src + i) % WORD)))

/-- Source `memcpy`. -/
def memcpy (m : Mem) (dest src size : Nat) : CopyResult :=
  if dest = 0 ∨ src = 0 then ⟨m, CopyOutcome.panicked "nil argument to copy"⟩
  else memcpyLoop dest src size 0 m

/-! ## The kernel interface as seen by the program -/

/-- What `syscall.Syscall` hands back: first result and error number
(the second result is discarded at every call site). -/
structure Sys where
  r1 : Nat
  errno : Nat
  deriving DecidableEq, Repr

/-- The structure an `ioctl` argument points to, with its contents at the call. -/
inductive Arg
  | zero
  | region (r : kvm_userspace_memory_region)
  | sregs (v : kvm_sregs)
  | regs (v : kvm_regs)
  deriving DecidableEq, Repr

/-- An operand of a `log.Fatalf` format: a `uintptr`, or a `syscall.Errno` with the text
its `Error()` method gives. -/
inductive FmtArg
  | word (n : Nat)
  | errno (n : Nat) (text : String)
  deriving DecidableEq, Repr

/-- Everything observable the program does, in program order. -/
inductive Event
  | sysOpen (path : String) (mode perm : Nat)
  | ioctl (fd op : Nat) (arg : Arg)
  | mmap (addr size prot flags fd off : Nat)
  | memcpy (dest src size : Nat)
  | myhandler (run : Nat)
  | println (text : String)
  | fatalf (format : String) (args : List FmtArg)
  | goPanic (msg : String)
  deriving DecidableEq, Repr

/-- Where the process stands: still in the run loop, or gone with an exit code. -/
inductive Status
  | running
  | exited (code : Nat)
  deriving DecidableEq, Repr

/-- Outcome of a run: the events so far and the status. -/
structure Run where
  events : List Event
  status : Status
  deriving DecidableEq, Repr

/-- The answers of the outside world: one per setup call, and one
(resume result, `myhandler` result) pair per loop iteration. -/
structure Env where
  openFd : Int
  openErr : Option String
  apiVersion : Sys
  createVm : Sys
  hostMmap : Sys
  setRegion : Sys
  createVcpu : Sys
  mmapSize : Sys
  runMmap : Sys
  getSregs : Sys
  /-- Contents of `sregs` after the get call returned. -/
  sregsRead : kvm_sregs
  setSregs : Sys
  setRegs : Sys
  /-- Address of `code[0]`. -/
  codeAddr : Nat
  /-- The address of a live Go object is never nil. -/
  codeAddr_ne : codeAddr ≠ 0
  /-- Text of an error number (`syscall.Errno.Error`, a table of Go's `syscall` package). -/
  errnoText : Nat → String
  loop : List (Sys × Int)

/-! Constants of Go's `syscall` package (not part of this repository), with their
Linux/amd64 values. No statement below depends on the values. -/

def O_RDWR : Nat := 0x2
def O_CLOEXEC : Nat := 0x80000
def PROT_READ : Nat := 0x1
def PROT_WRITE : Nat := 0x2
def MAP_SHARED : Nat := 0x1
def MAP_ANONYMOUS : Nat := 0x20

/-- Go runtime message for a method call through a nil interface. -/
def nilDereference : String :=
  "runtime error: invalid memory address or nil pointer dereference"

/-- Source `panic(err.Error())`: with a nil `err` the method call itself faults. -/
def panicErrError (err : Option String) : Event :=
  match err with
  | some msg => Event.goPanic msg
  | none => Event.goPanic nilDereference

/-- Exit code of `log.Fatalf`. -/
def FATAL : Nat := 1
/-- Exit code of an uncaught Go panic. -/
def PANIC : Nat := 2

/-- One pass through the body of the source's `for` loop. -/
def loopBody (vcpufd run : Nat) (inp : Sys × Int) : List Event × Status :=
  let ev := [Event.ioctl vcpufd KVM_RUN Arg.zero]
  if inp.1.errno ≠ 0 ∨ inp.1.r1 = trickGo (-1) then
    (ev ++ [Event.fatalf "KVM_RUN" []], Status.exited FATAL)
  else if inp.2 = 0 then
    (ev ++ [Event.myhandler run, Event.println "We are done apparently?"], Status.running)
  else
    (ev ++ [Event.myhandler run], Status.running)

/-- The source's `for { ... }` over the answers available so far. -/
def runLoop (vcpufd run : Nat) : List (Sys × Int) → List Event × Status
  | [] => ([], Status.running)
  | inp :: rest =>
    match loopBody vcpufd run inp with
    | (ev, Status.running) =>
      let r := runLoop vcpufd run rest
      (ev ++ r.1, r.2)
    | (ev, Status.exited c) => (ev, Status.exited c)

/-- Source `main`. -/
def main (e : Env) : Run :=
  let ev0 := [Event.sysOpen "/dev/kvm" (O_RDWR ||| O_CLOEXEC) 0]
  if e.openErr ≠ none then ⟨ev0 ++ [panicErrError e.openErr], Status.exited PANIC⟩ else
  let kvm := uintptrOfInt e.openFd
  let ev1 := ev0 ++ [Event.ioctl kvm KVM_GET_API_VERSION Arg.zero]
  if e.apiVersion.errno ≠ 0 then ⟨ev1 ++ [panicErrError e.openErr], Status.exited PANIC⟩ else
  if e.apiVersion.r1 ≠ 12 then
    ⟨ev1 ++ [Event.fatalf "KVM_GET_API_VERSION %d, expected 12\n" [FmtArg.word e.apiVersion.r1]],
      Status.exited FATAL⟩ else
  let ev2 := ev1 ++ [Event.ioctl kvm KVM_CREATE_VM Arg.zero]
  let vmfd := e.createVm.r1
  if e.createVm.errno ≠ 0 then
    ⟨ev2 ++ [Event.fatalf "Error KVM_CREATE\n" []], Status.exited FATAL⟩ else
  let ev3 := ev2 ++ [Event.mmap 0 0x1000 (PROT_READ ||| PROT_WRITE) (MAP_SHARED ||| MAP_ANONYMOUS) 0 0]
  let mem := e.hostMmap.r1
  if mem = 0 ∨ e.hostMmap.errno ≠ 0 then
    ⟨ev3 ++ [Event.fatalf "Oups %d - %d\n"
        [FmtArg.word mem, FmtArg.errno e.hostMmap.errno (e.errnoText e.hostMmap.errno)]],
      Status.exited FATAL⟩ else
  let ev4 := ev3 ++ [Event.memcpy mem e.codeAddr code.length]
  let region : kvm_userspace_memory_region :=
    { slot := 0, flags := 0, guest_phys_addr := 0x1000, memory_size := 0x1000,
      userspace_addr := mem }
  let ev5 := ev4 ++ [Event.ioctl vmfd KVM_SET_USER_MEMORY_REGION (Arg.region region)]
  if e.setRegion.errno ≠ 0 ∨ e.setRegion.r1 ≠ 0 then
    ⟨ev5 ++ [Event.fatalf "Ioctl failed %v %v\n"
        [FmtArg.errno e.setRegion.errno (e.errnoText e.setRegion.errno),
         FmtArg.word e.setRegion.r1]],
      Status.exited FATAL⟩ else
  let ev6 := ev5 ++ [Event.ioctl vmfd KVM_CREATE_VCPU Arg.zero]
  let vcpufd := e.createVcpu.r1
  if e.createVcpu.errno ≠ 0 then
    ⟨ev6 ++ [Event.fatalf "Error KVM_CREATE_VCPU\n" []], Status.exited FATAL⟩ else
  let ev7 := ev6 ++ [Event.ioctl kvm KVM_GET_VCPU_MMAP_SIZE Arg.zero]
  let mmap_size := e.mmapSize.r1
  if e.mmapSize.errno ≠ 0 then
    ⟨ev7 ++ [Event.fatalf "KVM_GET_VCPU_MMAP_SIZE\n" []], Status.exited FATAL⟩ else
  if mmap_size < 2352 then
    ⟨ev7 ++ [Event.fatalf "KVM_GET_VCPU_MMAP_SIZE unexpectedly small.\n" []],
      Status.exited FATAL⟩ else
  let ev8 := ev7 ++ [Event.mmap 0 mmap_size (PROT_READ ||| PROT_WRITE) MAP_SHARED
    (uintptrOfInt (intOfUintptr vcpufd)) 0]
  let run := e.runMmap.r1
  if run = 0 ∨ e.runMmap.errno ≠ 0 then
    ⟨ev8 ++ [Event.fatalf "mmap vpcu did not work" []], Status.exited FATAL⟩ else
  let ev9 := ev8 ++ [Event.ioctl vcpufd (trickGo KVM_GET_SREGS) (Arg.sregs kvm_sregs.zero)]
  if e.getSregs.errno ≠ 0 then
    ⟨ev9 ++ [Event.fatalf "KVM_GET_SREGS\n" []], Status.exited FATAL⟩ else
  let sregs := e.sregsRead
  let sregs := { sregs with cs := { sregs.cs with base := 0 } }
  let sregs := { sregs with cs := { sregs.cs with selector := 0 } }
  let ev10 := ev9 ++ [Event.ioctl vcpufd KVM_SET_SREGS (Arg.sregs sregs)]
  if e.setSregs.errno ≠ 0 then
    ⟨ev10 ++ [Event.fatalf "KVM_SET_SREGS\n" []], Status.exited FATAL⟩ else
  let regs : kvm_regs :=
    { rax := 2, rbx := 2, rcx := 0, rdx := 0, rsi := 0, rdi := 0, rsp := 0, rbp := 0,
      r8 := 0, r9 := 0, r10 := 0, r11 := 0, r12 := 0, r13 := 0, r14 := 0, r15 := 0,
      rip := 0x1000, rflags := 0x2 }
  let ev11 := ev10 ++ [Event.ioctl vcpufd KVM_SET_REGS (Arg.regs regs)]
  if e.setRegs.errno ≠ 0 then
    ⟨ev11 ++ [Event.fatalf "KVM_SET_REGS\n" []], Status.exited FATAL⟩ else
  let r := runLoop vcpufd run e.loop
  ⟨ev11 ++ r.1, r.2⟩

/-- Segment state of a freshly created vCPU (reset values), as the kernel reports it. -/
def realModeSregs : kvm_sregs :=
  { cs := ⟨0xffff0000, 0xffff, 0xf000, 11, 1, 0, 0, 1, 0, 0, 0, 0, 0⟩,
    ds := ⟨0, 0xffff, 0, 3, 1, 0, 0, 1, 0, 0, 0, 0, 0⟩,
    es := ⟨0, 0xffff, 0, 3, 1, 0, 0, 1, 0, 0, 0, 0, 0⟩,
    fs := ⟨0, 0xffff, 0, 3, 1, 0, 0, 1, 0, 0, 0, 0, 0⟩,
    gs := ⟨0, 0xffff, 0, 3, 1, 0, 0, 1, 0, 0, 0, 0, 0⟩,
    ss := ⟨0, 0xffff, 0, 3, 1, 0, 0, 1, 0, 0, 0, 0, 0⟩,
    tr := ⟨0, 0xffff, 0, 11, 1, 0, 0, 0, 0, 0, 0, 0, 0⟩,
    ldt := ⟨0, 0xffff, 0, 2, 1, 0, 0, 0, 0, 0, 0, 0, 0⟩,
    gdt := ⟨0, 0xffff, [0, 0, 0]⟩, idt := ⟨0, 0xffff, [0, 0, 0]⟩,
    _cr0 := 0x60000010, cr2 := 0, cr3 := 0, cr4 := 0, cr8 := 0, efer := 0,
    apic_base := 0xfee00900, interrupt_bitmap := [0, 0, 0, 0] }

/-- Error texts of Linux for the error numbers used in the worlds below; any other number
prints as `errno N`. -/
def linuxErrnoText (n : Nat) : String :=
  if n = 2 then "no such file or directory"
  else if n = 4 then "interrupted system call"
  else if n = 12 then "cannot allocate memory"
  else if n = 22 then "invalid argument"
  else if n = 24 then "too many open files"
  else "errno " ++ toString n

/-- A world in which every setup call succeeds and the guest halts at once. -/
def goodEnv : Env :=
  { openFd := 3, openErr := none,
    apiVersion := ⟨12, 0⟩, createVm := ⟨4, 0⟩, hostMmap := ⟨0x7f0000000000, 0⟩,
    setRegion := ⟨0, 0⟩, createVcpu := ⟨5, 0⟩, mmapSize := ⟨12288, 0⟩,
    runMmap := ⟨0x7f0000001000, 0⟩, getSregs := ⟨0, 0⟩,
    sregsRead := realModeSregs,
    setSregs := ⟨0, 0⟩, setRegs := ⟨0, 0⟩, codeAddr := 0x500000,
    codeAddr_ne := by decide, errnoText := linuxErrnoText,
    loop := [(⟨0, 0⟩, 0), (⟨0, 0⟩, 0)] }

/-! ## Setup steps and their guards -/

/-- The setup calls of `main`, in program order. -/
inductive Step
  | deviceOpen
  | apiVersion
  | createVm
  | hostMmap
  | setRegion
  | createVcpu
  | mmapSize
  | runMmap
  | getSregs
  | setSregs
  | setRegs
  deriving DecidableEq, Repr

/-- Position of a step among the kernel calls of `main`. -/
def Step.index : Step → Nat
  | .deviceOpen => 0
  | .apiVersion => 1
  | .createVm => 2
  | .hostMmap => 3
  | .setRegion => 4
  | .createVcpu => 5
  | .mmapSize => 6
  | .runMmap => 7
  | .getSregs => 8
  | .setSregs => 9
  | .setRegs => 10

/-- All steps in program order. -/
def Step.all : List Step :=
  [.deviceOpen, .apiVersion, .createVm, .hostMmap, .setRegion, .createVcpu,
   .mmapSize, .runMmap, .getSregs, .setSregs, .setRegs]

/-- The condition under which `main` gives up after the step (the `if`s that
follow the call in the source). -/
def Env.fails (e : Env) : Step → Bool
  | .deviceOpen => decide (e.openErr ≠ none)
  | .apiVersion => decide (e.apiVersion.errno ≠ 0) || decide (e.apiVersion.r1 ≠ 12)
  | .createVm => decide (e.createVm.errno ≠ 0)
  | .hostMmap => decide (e.hostMmap.r1 = 0) || decide (e.hostMmap.errno ≠ 0)
  | .setRegion => decide (e.setRegion.errno ≠ 0) || decide (e.setRegion.r1 ≠ 0)
  | .createVcpu => decide (e.createVcpu.errno ≠ 0)
  | .mmapSize => decide (e.mmapSize.errno ≠ 0) || decide (e.mmapSize.r1 < 2352)
  | .runMmap => decide (e.runMmap.r1 = 0) || decide (e.runMmap.errno ≠ 0)
  | .getSregs => decide (e.getSregs.errno ≠ 0)
  | .setSregs => decide (e.setSregs.errno ≠ 0)
  | .setRegs => decide (e.setRegs.errno ≠ 0)

/-- Every step before `s` went through. -/
def Env.reaches (e : Env) (s : Step) : Bool :=
  (Step.all.take s.index).all fun t => !e.fails t

/-- Every setup step went through: the run loop is entered. -/
def Env.setupOk (e : Env) : Bool :=
  Step.all.all fun t => !e.fails t

/-! ## Reading a trace -/

/-- Kernel-interface calls: `open`, `ioctl`, `mmap`. -/
def Event.isKernelCall : Event → Bool
  | .sysOpen _ _ _ => true
  | .ioctl _ _ _ => true
  | .mmap _ _ _ _ _ _ => true
  | _ => false

/-- Messages of `log.Fatalf` and `panic`. -/
def Event.isDiagnostic : Event → Bool
  | .fatalf _ _ => true
  | .goPanic _ => true
  | _ => false

def Event.isMmap : Event → Bool
  | .mmap _ _ _ _ _ _ => true
  | _ => false

/-- Command code of an `ioctl` event. -/
def Event.ioctlOp : Event → Option Nat
  | .ioctl _ op _ => some op
  | _ => none

/-- The kernel calls of a trace, in order. -/
def kernelCalls (evs : List Event) : List Event := evs.filter Event.isKernelCall

/-- The diagnostics of a trace, in order. -/
def diagnostics (evs : List Event) : List Event := evs.filter Event.isDiagnostic

/-- The command codes passed to `ioctl`, in order. -/
def ioctlOps (evs : List Event) : List Nat := evs.filterMap Event.ioctlOp

/-- Value handed to a set-segment-registers call. -/
def Event.sregsSet : Event → Option kvm_sregs
  | .ioctl _ op (.sregs v) => if op = KVM_SET_SREGS then some v else none
  | _ => none

/-- Value handed to a set-registers call. -/
def Event.regsSet : Event → Option kvm_regs
  | .ioctl _ op (.regs v) => if op = KVM_SET_REGS then some v else none
  | _ => none

/-- Region handed to a set-memory-region call. -/
def Event.regionSet : Event → Option kvm_userspace_memory_region
  | .ioctl _ op (.region r) => if op = KVM_SET_USER_MEMORY_REGION then some r else none
  | _ => none

/-- A resume call. -/
def Event.isResume : Event → Bool
  | .ioctl _ op _ => decide (op = KVM_RUN)
  | _ => false

/-- How a format verb prints an operand: `%d` prints the number, `%v` prints a `uintptr` as a
number and an `Errno` as its text. -/
def FmtArg.render (verb : Char) : FmtArg → String
  | .word n => toString n
  | .errno n text => if verb = Char.ofNat 118 then text else toString n

/-- The text `fmt` produces from a format and its operands: each `%` followed by a verb
(character 37, then the verb) is replaced by the next operand. -/
def sprintf : List Char → List FmtArg → List Char
  | [], _ => []
  | [c], _ => [c]
  | c :: v :: cs, [] => c :: sprintf (v :: cs) []
  | c :: v :: cs, a :: rest =>
    if c = Char.ofNat 37 then (a.render v).toList ++ sprintf cs rest
    else c :: sprintf (v :: cs) (a :: rest)

/-- Printed text of a diagnostic: the formatted message of a `log.Fatalf` (without the
time stamp the logger puts in front), the value of a `panic`. -/
def Event.text : Event → String
  | .fatalf format args => String.mk (sprintf format.toList args)
  | .goPanic msg => msg
  | _ => ""

/-- Letters, digits and the underscore (character 95). -/
def isWordChar (c : Char) : Bool := c.isAlphanum || c = Char.ofNat 95

/-- The words of a text: its maximal runs of word characters, in order
(`cur` is the word being read, reversed). -/
def splitWords : List Char → List Char → List (List Char)
  | [], cur => if cur.isEmpty then [] else [cur.reverse]
  | c :: cs, cur =>
    if isWordChar c then splitWords cs (c :: cur)
    else if cur.isEmpty then splitWords cs [] else cur.reverse :: splitWords cs []

/-- Words by which a message names a step: the identifier of the command (as the source's
messages write it) or of the function called, and the words for the operation. -/
def Step.names : Step → List String
  | .deviceOpen => ["open", "Open", "dev", "kvm", "device"]
  | .apiVersion => ["KVM_GET_API_VERSION"]
  | .createVm => ["KVM_CREATE_VM", "KVM_CREATE"]
  | .hostMmap => ["mmap", "Mmap", "map", "mapping", "buffer", "memory", "mem"]
  | .setRegion => ["KVM_SET_USER_MEMORY_REGION", "region", "Region", "memory"]
  | .createVcpu => ["KVM_CREATE_VCPU"]
  | .mmapSize => ["KVM_GET_VCPU_MMAP_SIZE"]
  | .runMmap => ["mmap"]
  | .getSregs => ["KVM_GET_SREGS"]
  | .setSregs => ["KVM_SET_SREGS"]
  | .setRegs => ["KVM_SET_REGS"]

/-- The diagnostic names the step: one of the words of its printed text is one of the
step's names. -/
def namesStep (s : Step) (ev : Event) : Bool :=
  (splitWords ev.text.toList []).any fun w => s.names.any fun nm => decide (nm.toList = w)

/-- A world without the device: `open` fails with `ENOENT`. -/
def noDeviceEnv : Env := { goodEnv with openFd := -1, openErr := some (linuxErrnoText 2) }

/-- A world in which the host-buffer mapping fails with `ENOMEM`; the raw system call then
returns the all-ones word. -/
def noMemoryEnv : Env := { goodEnv with hostMmap := ⟨2 ^ 64 - 1, 12⟩ }

/-- A world in which the memory-region install fails with `EINVAL`. -/
def badRegionEnv : Env := { goodEnv with setRegion := ⟨2 ^ 64 - 1, 22⟩ }

/-- A world whose kernel reports API version 11. -/
def oldApiEnv : Env := { goodEnv with apiVersion := ⟨11, 0⟩ }

/-- A world whose kernel reports a run-state size of 2048 bytes. -/
def smallRunEnv : Env := { goodEnv with mmapSize := ⟨2048, 0⟩ }

/-- A world in which the vCPU cannot be created (`EMFILE`). -/
def noVcpuEnv : Env := { goodEnv with createVcpu := ⟨2 ^ 64 - 1, 24⟩ }

/-- A world in which the guest does one port write, and the next resume is interrupted
(`EINTR`). -/
def interruptedEnv : Env :=
  { goodEnv with loop := [(⟨0, 0⟩, 1), (⟨2 ^ 64 - 1, 4⟩, 0), (⟨0, 0⟩, 0)] }

/-- A memory whose byte at address `a` is `a % 251`, with a read-write data area at
`0x400000 .. 0x5fffff` and one read-write page at `0x7f0000000000`. -/
def rampMem : Mem :=
  { byte := fun a => a % 251,
    readable := fun a =>
      (decide (0x400000 ≤ a) && decide (a < 0x600000)) ||
        (decide (0x7f0000000000 ≤ a) && decide (a < 0x7f0000001000)),
    writable := fun a =>
      (decide (0x400000 ≤ a) && decide (a < 0x600000)) ||
        (decide (0x7f0000000000 ≤ a) && decide (a < 0x7f0000001000)) }

/-- The memory of a process in `goodEnv` when `memcpy` is called: the bytes of `code` at
`0x500000`, inside a read-write data area, and the freshly mapped read-write page at
`0x7f0000000000`, zero-filled. -/
def loadedMem : Mem :=
  { byte := fun a => if 0x500000 ≤ a ∧ a < 0x500000 + 12 then code.getD (a - 0x500000) 0 else 0,
    readable := rampMem.readable,
    writable := rampMem.writable }

/-! ## What `main` leaves behind -/

/-- The events of the eleven setup calls (and the payload copy) when all go through. -/
def setupEvents (e : Env) : List Event :=
  [Event.sysOpen "/dev/kvm" (O_RDWR ||| O_CLOEXEC) 0,
   Event.ioctl (uintptrOfInt e.openFd) KVM_GET_API_VERSION Arg.zero,
   Event.ioctl (uintptrOfInt e.openFd) KVM_CREATE_VM Arg.zero,
   Event.mmap 0 0x1000 (PROT_READ ||| PROT_WRITE) (MAP_SHARED ||| MAP_ANONYMOUS) 0 0,
   Event.memcpy e.hostMmap.r1 e.codeAddr 12,
   Event.ioctl e.createVm.r1 KVM_SET_USER_MEMORY_REGION
     (Arg.region ⟨0, 0, 0x1000, 0x1000, e.hostMmap.r1⟩),
   Event.ioctl e.createVm.r1 KVM_CREATE_VCPU Arg.zero,
   Event.ioctl (uintptrOfInt e.openFd) KVM_GET_VCPU_MMAP_SIZE Arg.zero,
   Event.mmap 0 e.mmapSize.r1 (PROT_READ ||| PROT_WRITE) MAP_SHARED
     (uintptrOfInt (intOfUintptr e.createVcpu.r1)) 0,
   Event.ioctl e.createVcpu.r1 (trickGo KVM_GET_SREGS) (Arg.sregs kvm_sregs.zero),
   Event.ioctl e.createVcpu.r1 KVM_SET_SREGS
     (Arg.sregs { e.sregsRead with cs := { e.sregsRead.cs with base := 0, selector := 0 } }),
   Event.ioctl e.createVcpu.r1 KVM_SET_REGS
     (Arg.regs ⟨2, 2, 0, 0, 0, 0, 0, 0, 0, 0, 0, 0, 0, 0, 0, 0, 0x1000, 0x2⟩)]

/-- Number of events `main` has produced once the call of step `s` is made. -/
def Step.eventsThrough : Step → Nat
  | .deviceOpen => 1
  | .apiVersion => 2
  | .createVm => 3
  | .hostMmap => 4
  | .setRegion => 6
  | .createVcpu => 7
  | .mmapSize => 8
  | .runMmap => 9
  | .getSregs => 10
  | .setSregs => 11
  | .setRegs => 12

/-- The message `main` leaves with when step `s` fails. -/
def Env.diagnostic (e : Env) : Step → Event
  | .deviceOpen => panicErrError e.openErr
  | .apiVersion =>
    if e.apiVersion.errno ≠ 0 then panicErrError e.openErr
    else Event.fatalf "KVM_GET_API_VERSION %d, expected 12\n" [FmtArg.word e.apiVersion.r1]
  | .createVm => Event.fatalf "Error KVM_CREATE\n" []
  | .hostMmap =>
    Event.fatalf "Oups %d - %d\n"
      [FmtArg.word e.hostMmap.r1, FmtArg.errno e.hostMmap.errno (e.errnoText e.hostMmap.errno)]
  | .setRegion =>
    Event.fatalf "Ioctl failed %v %v\n"
      [FmtArg.errno e.setRegion.errno (e.errnoText e.setRegion.errno), FmtArg.word e.setRegion.r1]
  | .createVcpu => Event.fatalf "Error KVM_CREATE_VCPU\n" []
  | .mmapSize =>
    if e.mmapSize.errno ≠ 0 then Event.fatalf "KVM_GET_VCPU_MMAP_SIZE\n" []
    else Event.fatalf "KVM_GET_VCPU_MMAP_SIZE unexpectedly small.\n" []
  | .runMmap => Event.fatalf "mmap vpcu did not work" []
  | .getSregs => Event.fatalf "KVM_GET_SREGS\n" []
  | .setSregs => Event.fatalf "KVM_SET_SREGS\n" []
  | .setRegs => Event.fatalf "KVM_SET_REGS\n" []

/-- Exit code `main` leaves with when step `s` fails. -/
def Env.failCode (e : Env) : Step → Nat
  | .deviceOpen => PANIC
  | .apiVersion => if e.apiVersion.errno ≠ 0 then PANIC else FATAL
  | _ => FATAL


/-! # Lemmas -/


/-! ## The run loop -/

theorem loopBody_status (v r : Nat) (inp : Sys × Int) :
    (loopBody v r inp).2 = Status.running ∨ (loopBody v r inp).2 = Status.exited FATAL := by
  unfold loopBody
  split_ifs <;> simp

theorem loopBody_fatal (v r : Nat) (inp : Sys × Int)
    (h : inp.1.errno ≠ 0 ∨ inp.1.r1 = trickGo (-1)) :
    loopBody v r inp =
      ([Event.ioctl v KVM_RUN Arg.zero, Event.fatalf "KVM_RUN" []], Status.exited FATAL) := by
  unfold loopBody
  simp [h]

theorem loopBody_continue (v r : Nat) (inp : Sys × Int)
    (h : ¬ (inp.1.errno ≠ 0 ∨ inp.1.r1 = trickGo (-1))) :
    (loopBody v r inp).2 = Status.running := by
  unfold loopBody
  rw [if_neg h]
  split_ifs <;> rfl

theorem runLoop_cons_running (v r : Nat) (inp : Sys × Int) (rest : List (Sys × Int))
    (h : (loopBody v r inp).2 = Status.running) :
    runLoop v r (inp :: rest) =
      ((loopBody v r inp).1 ++ (runLoop v r rest).1, (runLoop v r rest).2) := by
  rcases hb : loopBody v r inp with ⟨ev, st⟩
  rw [hb] at h
  simp only at h
  subst h
  simp [runLoop, hb]

theorem runLoop_cons_exited (v r : Nat) (inp : Sys × Int) (rest : List (Sys × Int)) (c : Nat)
    (h : (loopBody v r inp).2 = Status.exited c) :
    runLoop v r (inp :: rest) = ((loopBody v r inp).1, Status.exited c) := by
  rcases hb : loopBody v r inp with ⟨ev, st⟩
  rw [hb] at h
  simp only at h
  subst h
  simp [runLoop, hb]

theorem runLoop_status (v r : Nat) (l : List (Sys × Int)) :
    (runLoop v r l).2 = Status.running ∨ (runLoop v r l).2 = Status.exited FATAL := by
  induction l with
  | nil => simp [runLoop]
  | cons inp rest ih =>
    rcases loopBody_status v r inp with h | h
    · rw [runLoop_cons_running v r inp rest h]; exact ih
    · rw [runLoop_cons_exited v r inp rest _ h]; simp

/-- Every event of the loop is a resume, a handler call, the "done" line or the
resume diagnostic. -/
theorem runLoop_events (v r : Nat) (l : List (Sys × Int)) :
    ∀ ev ∈ (runLoop v r l).1,
      ev = Event.ioctl v KVM_RUN Arg.zero ∨ ev = Event.myhandler r ∨
      ev = Event.println "We are done apparently?" ∨ ev = Event.fatalf "KVM_RUN" [] := by
  induction l with
  | nil => simp [runLoop]
  | cons inp rest ih =>
    have hb : ∀ ev ∈ (loopBody v r inp).1,
        ev = Event.ioctl v KVM_RUN Arg.zero ∨ ev = Event.myhandler r ∨
        ev = Event.println "We are done apparently?" ∨ ev = Event.fatalf "KVM_RUN" [] := by
      unfold loopBody
      split_ifs <;> simp
    rcases loopBody_status v r inp with h | h
    · rw [runLoop_cons_running v r inp rest h]
      intro ev hev
      rcases List.mem_append.mp hev with h1 | h1
      · exact hb ev h1
      · exact ih ev h1
    · rw [runLoop_cons_exited v r inp rest _ h]
      exact hb

/-- Resumes that go through keep the loop going: a prefix of them leaves it running. -/
theorem runLoop_append (v r : Nat) (pre rest : List (Sys × Int))
    (h : ∀ p ∈ pre, ¬ (p.1.errno ≠ 0 ∨ p.1.r1 = trickGo (-1))) :
    runLoop v r (pre ++ rest) =
      ((runLoop v r pre).1 ++ (runLoop v r rest).1, (runLoop v r rest).2) := by
  induction pre with
  | nil => simp [runLoop]
  | cons p ps ih =>
    have hp := loopBody_continue v r p (h p (List.mem_cons_self _ _))
    have ih' := ih (fun q hq => h q (List.mem_cons_of_mem _ hq))
    rw [List.cons_append, runLoop_cons_running v r p _ hp, runLoop_cons_running v r p _ hp, ih']
    simp

/-! ## `main`, step by step -/


theorem main_setupOk (e : Env) (h : e.setupOk = true) :
    main e = ⟨setupEvents e ++ (runLoop e.createVcpu.r1 e.runMmap.r1 e.loop).1,
              (runLoop e.createVcpu.r1 e.runMmap.r1 e.loop).2⟩ := by
  simp [Env.setupOk, Step.all, Env.fails] at h
  obtain ⟨h0, ⟨h1, h1'⟩, h2, ⟨h3, h3'⟩, ⟨h4, h4'⟩, h5, ⟨h6, h6'⟩, ⟨h7, h7'⟩, h8, h9, h10⟩ := h
  simp [main, setupEvents, code, h0, h1, h1', h2, h3, h3', h4, h4', h5, h6, h6', h7, h7', h8, h9,
    h10, Nat.not_lt.mpr h6']

/-- When step `s` is the first to fail, the trace is the calls up to `s` followed by the
step's message, and the process is gone. -/
theorem main_fails (e : Env) (s : Step) (hr : e.reaches s = true) (hf : e.fails s = true) :
    main e = ⟨(setupEvents e).take s.eventsThrough ++ [e.diagnostic s],
              Status.exited (e.failCode s)⟩ := by
  cases s <;> simp [Env.reaches, Step.all, Step.index, Env.fails] at hr hf
  case deviceOpen =>
    simp [main, setupEvents, Step.eventsThrough, Env.diagnostic, Env.failCode, hf]
  case apiVersion =>
    by_cases h1 : e.apiVersion.errno = 0
    · have h2 : ¬ e.apiVersion.r1 = 12 := by tauto
      simp [main, setupEvents, Step.eventsThrough, Env.diagnostic, Env.failCode, hr, h1, h2]
    · simp [main, setupEvents, Step.eventsThrough, Env.diagnostic, Env.failCode, hr, h1]
  case createVm =>
    simp [main, setupEvents, Step.eventsThrough, Env.diagnostic, Env.failCode, hr, hf]
  case hostMmap =>
    simp [main, setupEvents, Step.eventsThrough, Env.diagnostic, Env.failCode, hr, hf]
  case setRegion =>
    simp [main, setupEvents, Step.eventsThrough, Env.diagnostic, Env.failCode, hr, hf, code]
  case createVcpu =>
    simp [main, setupEvents, Step.eventsThrough, Env.diagnostic, Env.failCode, hr, hf, code]
  case mmapSize =>
    by_cases h1 : e.mmapSize.errno = 0
    · have h2 : e.mmapSize.r1 < 2352 := by tauto
      simp [main, setupEvents, Step.eventsThrough, Env.diagnostic, Env.failCode, hr, h1, h2, code]
    · simp [main, setupEvents, Step.eventsThrough, Env.diagnostic, Env.failCode, hr, h1, code]
  case runMmap =>
    have h6 : ¬ e.mmapSize.r1 < 2352 := by omega
    simp [main, setupEvents, Step.eventsThrough, Env.diagnostic, Env.failCode, hr, hf, h6, code]
  case getSregs =>
    have h6 : ¬ e.mmapSize.r1 < 2352 := by omega
    simp [main, setupEvents, Step.eventsThrough, Env.diagnostic, Env.failCode, hr, hf, h6, code]
  case setSregs =>
    have h6 : ¬ e.mmapSize.r1 < 2352 := by omega
    simp [main, setupEvents, Step.eventsThrough, Env.diagnostic, Env.failCode, hr, hf, h6, code]
  case setRegs =>
    have h6 : ¬ e.mmapSize.r1 < 2352 := by omega
    simp [main, setupEvents, Step.eventsThrough, Env.diagnostic, Env.failCode, hr, hf, h6, code]

/-- Either some step is the first to fail, or the whole setup goes through. -/
theorem first_failure (e : Env) :
    e.setupOk = true ∨ ∃ s : Step, e.reaches s = true ∧ e.fails s = true := by
  by_cases h0 : e.fails .deviceOpen = true
  · exact Or.inr ⟨.deviceOpen, by simp [Env.reaches, Step.all, Step.index], h0⟩
  by_cases h1 : e.fails .apiVersion = true
  · exact Or.inr ⟨.apiVersion, by simpa [Env.reaches, Step.all, Step.index] using h0, h1⟩
  by_cases h2 : e.fails .createVm = true
  · exact Or.inr ⟨.createVm, by simp [Env.reaches, Step.all, Step.index, h0, h1], h2⟩
  by_cases h3 : e.fails .hostMmap = true
  · exact Or.inr ⟨.hostMmap, by simp [Env.reaches, Step.all, Step.index, h0, h1, h2], h3⟩
  by_cases h4 : e.fails .setRegion = true
  · exact Or.inr ⟨.setRegion, by simp [Env.reaches, Step.all, Step.index, h0, h1, h2, h3], h4⟩
  by_cases h5 : e.fails .createVcpu = true
  · exact Or.inr ⟨.createVcpu, by simp [Env.reaches, Step.all, Step.index, h0, h1, h2, h3, h4], h5⟩
  by_cases h6 : e.fails .mmapSize = true
  · exact Or.inr ⟨.mmapSize,
      by simp [Env.reaches, Step.all, Step.index, h0, h1, h2, h3, h4, h5], h6⟩
  by_cases h7 : e.fails .runMmap = true
  · exact Or.inr ⟨.runMmap,
      by simp [Env.reaches, Step.all, Step.index, h0, h1, h2, h3, h4, h5, h6], h7⟩
  by_cases h8 : e.fails .getSregs = true
  · exact Or.inr ⟨.getSregs,
      by simp [Env.reaches, Step.all, Step.index, h0, h1, h2, h3, h4, h5, h6, h7], h8⟩
  by_cases h9 : e.fails .setSregs = true
  · exact Or.inr ⟨.setSregs,
      by simp [Env.reaches, Step.all, Step.index, h0, h1, h2, h3, h4, h5, h6, h7, h8], h9⟩
  by_cases h10 : e.fails .setRegs = true
  · exact Or.inr ⟨.setRegs,
      by simp [Env.reaches, Step.all, Step.index, h0, h1, h2, h3, h4, h5, h6, h7, h8, h9], h10⟩
  exact Or.inl (by simp [Env.setupOk, Step.all, h0, h1, h2, h3, h4, h5, h6, h7, h8, h9, h10])

theorem failCode_cases (e : Env) (s : Step) : e.failCode s = FATAL ∨ e.failCode s = PANIC := by
  cases s <;> simp [Env.failCode]
  by_cases h : e.apiVersion.errno = 0 <;> simp [h]

theorem main_status (e : Env) :
    (main e).status = Status.running ∨ (main e).status = Status.exited FATAL ∨
      (main e).status = Status.exited PANIC := by
  rcases first_failure e with h | ⟨s, hr, hf⟩
  · rw [main_setupOk e h]
    rcases runLoop_status e.createVcpu.r1 e.runMmap.r1 e.loop with h | h <;> simp [h]
  · rw [main_fails e s hr hf]
    rcases failCode_cases e s with h | h <;> simp [h]


theorem eventsThrough_le_twelve (s : Step) : s.eventsThrough ≤ 12 := by
  cases s <;> simp [Step.eventsThrough]

/-- A step that is reached lies at or before the first failing step. -/
theorem reaches_before_failure (e : Env) (s t : Step)
    (hr : e.reaches s = true) (hf : e.fails t = true) :
    s.eventsThrough ≤ t.eventsThrough := by
  by_contra hlt
  have hmem : t ∈ Step.all.take s.index := by
    cases s <;> cases t <;> simp [Step.eventsThrough] at hlt <;>
      simp [Step.all, Step.index]
  have := (List.all_eq_true.mp hr) t hmem
  simp [hf] at this

theorem panicErrError_isDiagnostic (err : Option String) :
    (panicErrError err).isDiagnostic = true := by
  cases err <;> rfl

theorem diagnostic_isDiagnostic (e : Env) (s : Step) : (e.diagnostic s).isDiagnostic = true := by
  cases s <;> simp only [Env.diagnostic]
  case deviceOpen => exact panicErrError_isDiagnostic _
  case apiVersion =>
    split_ifs
    · exact panicErrError_isDiagnostic _
    · rfl
  case mmapSize => split_ifs <;> rfl
  all_goals rfl

/-- Shape of every run once step `s` is reached: the setup events up to some point at or
after the call of `s`, followed only by a diagnostic or by events of the run loop. -/
theorem main_trace (e : Env) (s : Step) (hr : e.reaches s = true) :
    ∃ k tail, s.eventsThrough ≤ k ∧ k ≤ 12 ∧
      (main e).events = (setupEvents e).take k ++ tail ∧
      ∀ ev ∈ tail, ev.isDiagnostic = true ∨ ev = Event.ioctl e.createVcpu.r1 KVM_RUN Arg.zero ∨
        ev = Event.myhandler e.runMmap.r1 ∨ ev = Event.println "We are done apparently?" := by
  rcases first_failure e with h | ⟨t, htr, htf⟩
  · refine ⟨12, (runLoop e.createVcpu.r1 e.runMmap.r1 e.loop).1, eventsThrough_le_twelve s,
      le_refl _, ?_, ?_⟩
    · rw [main_setupOk e h]
      simp [setupEvents]
    · intro ev hev
      rcases runLoop_events _ _ _ ev hev with h1 | h1 | h1 | h1
      · exact Or.inr (Or.inl h1)
      · exact Or.inr (Or.inr (Or.inl h1))
      · exact Or.inr (Or.inr (Or.inr h1))
      · exact Or.inl (by rw [h1]; rfl)
  · refine ⟨t.eventsThrough, [e.diagnostic t], reaches_before_failure e s t hr htf,
      eventsThrough_le_twelve t, ?_, ?_⟩
    · rw [main_fails e t htr htf]
    · intro ev hev
      rw [List.mem_singleton] at hev
      rw [hev]
      exact Or.inl (diagnostic_isDiagnostic e t)


/-! ## `memcpy` -/

theorem store_readable (m : Mem) (a b : Nat) : (m.store a b).readable = m.readable := rfl

theorem store_writable (m : Mem) (a b : Nat) : (m.store a b).writable = m.writable := rfl

/-- Bytes at addresses the loop does not store to are kept, however the loop ends. -/
theorem memcpyLoop_frame (dest src : Nat) (n : Nat) :
    ∀ (i : Nat) (m : Mem) (a : Nat), (∀ j, j < n → a ≠ (dest + (i + j)) % WORD) →
      (memcpyLoop dest src n i m).mem.byte a = m.byte a := by
  induction n with
  | zero => intro i m a _; rfl
  | succ n ih =>
    intro i m a h
    rw [memcpyLoop]
    split_ifs
    · rfl
    · rfl
    · rw [ih (i + 1) _ a]
      · have h0 := h 0 (Nat.succ_pos n)
        simp only [Nat.add_zero] at h0
        simp [Mem.store, h0]
      · intro j hj
        have := h (j + 1) (Nat.succ_lt_succ hj)
        rwa [show i + 1 + j = i + (j + 1) by omega]

/-- With every source byte readable and every destination byte writable the loop runs to
its end. -/
theorem memcpyLoop_returns (dest src : Nat) (n : Nat) :
    ∀ (i : Nat) (m : Mem),
      (∀ j, j < n → m.readable ((src + (i + j)) % WORD) = true) →
      (∀ j, j < n → m.writable ((dest + (i + j)) % WORD) = true) →
      (memcpyLoop dest src n i m).outcome = CopyOutcome.returned := by
  induction n with
  | zero => intro i m _ _; rfl
  | succ n ih =>
    intro i m hr hw
    have hr0 := hr 0 (Nat.succ_pos n)
    have hw0 := hw 0 (Nat.succ_pos n)
    simp only [Nat.add_zero] at hr0 hw0
    rw [memcpyLoop]
    simp only [hr0, hw0, Bool.true_eq_false, if_false]
    apply ih
    · intro j hj
      rw [store_readable, show i + 1 + j = i + (j + 1) by omega]
      exact hr (j + 1) (Nat.succ_lt_succ hj)
    · intro j hj
      rw [store_writable, show i + 1 + j = i + (j + 1) by omega]
      exact hw (j + 1) (Nat.succ_lt_succ hj)

/-- A source byte that cannot be read or a destination byte that cannot be written makes the
loop end in a fault. -/
theorem memcpyLoop_faults (dest src : Nat) (n : Nat) :
    ∀ (i : Nat) (m : Mem),
      (∃ j, j < n ∧ (m.readable ((src + (i + j)) % WORD) = false ∨
        m.writable ((dest + (i + j)) % WORD) = false)) →
      ∃ a, (memcpyLoop dest src n i m).outcome = CopyOutcome.faulted a := by
  induction n with
  | zero => intro i m ⟨j, hj, _⟩; omega
  | succ n ih =>
    intro i m ⟨j, hj, hbad⟩
    rw [memcpyLoop]
    split_ifs with h1 h2
    · exact ⟨_, rfl⟩
    · exact ⟨_, rfl⟩
    · cases j with
      | zero =>
        simp only [Nat.add_zero] at hbad
        rcases hbad with hb | hb
        · exact absurd hb h1
        · exact absurd hb h2
      | succ j =>
        apply ih
        refine ⟨j, Nat.lt_of_succ_lt_succ hj, ?_⟩
        rw [store_readable, store_writable, show i + 1 + j = i + (j + 1) by omega]
        exact hbad

/-- With the destination bytes distinct from the source bytes, each destination byte ends up
with the old source byte. -/
theorem memcpyLoop_copy (dest src : Nat) (n : Nat) :
    ∀ (i : Nat) (m : Mem), n ≤ WORD →
      (∀ j, j < n → m.readable ((src + (i + j)) % WORD) = true) →
      (∀ j, j < n → m.writable ((dest + (i + j)) % WORD) = true) →
      (∀ j, j < n → ∀ k, k < n → (dest + (i + j)) % WORD ≠ (src + (i + k)) % WORD) →
      ∀ j, j < n →
        (memcpyLoop dest src n i m).mem.byte ((dest + (i + j)) % WORD) =
          m.byte ((src + (i + j)) % WORD) := by
  induction n with
  | zero => intro i m _ _ _ _ j hj; omega
  | succ n ih =>
    intro i m hn hr hw hdis j hj
    have hr0 := hr 0 (Nat.succ_pos n)
    have hw0 := hw 0 (Nat.succ_pos n)
    simp only [Nat.add_zero] at hr0 hw0
    rw [memcpyLoop]
    simp only [hr0, hw0, Bool.true_eq_false, if_false]
    cases j with
    | zero =>
      rw [memcpyLoop_frame]
      · simp [Mem.store]
      · intro k hk heq
        simp only [WORD, Nat.add_zero] at heq hn
        norm_num at heq hn
        omega
    | succ j =>
      have hj' : j < n := Nat.lt_of_succ_lt_succ hj
      have ih' := ih (i + 1) (m.store ((dest + i) % WORD) (m.byte ((src + i) % WORD)))
        (Nat.le_of_succ_le hn)
        (by
          intro a ha
          rw [store_readable, show i + 1 + a = i + (a + 1) by omega]
          exact hr (a + 1) (Nat.succ_lt_succ ha))
        (by
          intro a ha
          rw [store_writable, show i + 1 + a = i + (a + 1) by omega]
          exact hw (a + 1) (Nat.succ_lt_succ ha))
        (by
          intro a ha b hb
          have := hdis (a + 1) (Nat.succ_lt_succ ha) (b + 1) (Nat.succ_lt_succ hb)
          rwa [show i + 1 + a = i + (a + 1) by omega, show i + 1 + b = i + (b + 1) by omega])
        j hj'
      rw [show i + 1 + j = i + (j + 1) by omega] at ih'
      rw [ih']
      have hne := hdis 0 (Nat.succ_pos n) (j + 1) hj
      simp only [Nat.add_zero] at hne
      simp [Mem.store, Ne.symm hne]

/-! # The claims -/

/-- Events after the setup calls are no set-up calls: they pass no structure and map nothing. -/
theorem tail_observers (v r : Nat) (ev : Event)
    (h : ev.isDiagnostic = true ∨ ev = Event.ioctl v KVM_RUN Arg.zero ∨
      ev = Event.myhandler r ∨ ev = Event.println "We are done apparently?") :
    ev.isMmap = false ∧ ev.sregsSet = none ∧ ev.regsSet = none ∧ ev.regionSet = none ∧
      (ev.ioctlOp = none ∨ ev.ioctlOp = some KVM_RUN) := by
  rcases h with h | h | h | h
  · cases ev <;> simp [Event.isDiagnostic] at h <;>
      simp [Event.isMmap, Event.sregsSet, Event.regsSet, Event.regionSet, Event.ioctlOp]
  all_goals
    subst h
    simp [Event.isMmap, Event.sregsSet, Event.regsSet, Event.regionSet, Event.ioctlOp]

/-- C2. When the device opens and the version query returns no errno: a version other than 12
ends the run with a failure after the version query, with no VM-creation call nor any other
kernel call; with version 12 the next call is the VM creation. -/
theorem C2_api_version_gate (e : Env) (hopen : e.openErr = none)
    (herr : e.apiVersion.errno = 0) :
    (e.apiVersion.r1 ≠ 12 →
      (main e).status = Status.exited 1 ∧
      (main e).events =
        [Event.sysOpen "/dev/kvm" (O_RDWR ||| O_CLOEXEC) 0,
         Event.ioctl (uintptrOfInt e.openFd) KVM_GET_API_VERSION Arg.zero,
         Event.fatalf "KVM_GET_API_VERSION %d, expected 12\n" [FmtArg.word e.apiVersion.r1]] ∧
      KVM_CREATE_VM ∉ ioctlOps (main e).events) ∧
    (e.apiVersion.r1 = 12 →
      ∃ post, (main e).events =
        [Event.sysOpen "/dev/kvm" (O_RDWR ||| O_CLOEXEC) 0,
         Event.ioctl (uintptrOfInt e.openFd) KVM_GET_API_VERSION Arg.zero,
         Event.ioctl (uintptrOfInt e.openFd) KVM_CREATE_VM Arg.zero] ++ post) := by
  constructor
  · intro hv
    have hr : e.reaches .apiVersion = true := by
      simp [Env.reaches, Step.all, Step.index, Env.fails, hopen]
    have hf : e.fails .apiVersion = true := by simp [Env.fails, hv]
    rw [main_fails e .apiVersion hr hf]
    simp [setupEvents, Step.eventsThrough, Env.diagnostic, Env.failCode, herr, FATAL, ioctlOps,
      Event.ioctlOp, KVM_CREATE_VM, KVM_GET_API_VERSION]
  · intro hv
    have hr : e.reaches .createVm = true := by
      simp [Env.reaches, Step.all, Step.index, Env.fails, hopen, herr, hv]
    obtain ⟨k, tail, hk, hk', hev, -⟩ := main_trace e .createVm hr
    simp only [Step.eventsThrough] at hk
    rw [hev]
    interval_cases k <;> simp [setupEvents]


theorem tail_filter_isMmap (v r : Nat) (tail : List Event)
    (h : ∀ ev ∈ tail, ev.isDiagnostic = true ∨ ev = Event.ioctl v KVM_RUN Arg.zero ∨
      ev = Event.myhandler r ∨ ev = Event.println "We are done apparently?") :
    tail.filter Event.isMmap = [] := by
  rw [List.filter_eq_nil_iff]
  intro ev hev
  simp [(tail_observers v r ev (h ev hev)).1]

theorem tail_sregsSet (v r : Nat) (tail : List Event)
    (h : ∀ ev ∈ tail, ev.isDiagnostic = true ∨ ev = Event.ioctl v KVM_RUN Arg.zero ∨
      ev = Event.myhandler r ∨ ev = Event.println "We are done apparently?") :
    tail.filterMap Event.sregsSet = [] := by
  rw [List.filterMap_eq_nil_iff]
  intro ev hev
  exact (tail_observers v r ev (h ev hev)).2.1

theorem tail_regsSet (v r : Nat) (tail : List Event)
    (h : ∀ ev ∈ tail, ev.isDiagnostic = true ∨ ev = Event.ioctl v KVM_RUN Arg.zero ∨
      ev = Event.myhandler r ∨ ev = Event.println "We are done apparently?") :
    tail.filterMap Event.regsSet = [] := by
  rw [List.filterMap_eq_nil_iff]
  intro ev hev
  exact (tail_observers v r ev (h ev hev)).2.2.1

/-- C3. When the setup has gone through up to the run-state size query and the query returns no
errno: a size below 2352 ends the run with a failure, with only the host buffer mapped and no
resume issued; a size of at least 2352 is followed by the mapping of the run-state buffer with
exactly that size. -/
theorem C3_run_state_size_gate (e : Env) (hr : e.reaches .mmapSize = true)
    (herr : e.mmapSize.errno = 0) :
    (e.mmapSize.r1 < 2352 →
      (main e).status = Status.exited 1 ∧
      diagnostics (main e).events =
        [Event.fatalf "KVM_GET_VCPU_MMAP_SIZE unexpectedly small.\n" []] ∧
      (main e).events.filter Event.isMmap =
        [Event.mmap 0 0x1000 (PROT_READ ||| PROT_WRITE) (MAP_SHARED ||| MAP_ANONYMOUS) 0 0] ∧
      KVM_RUN ∉ ioctlOps (main e).events) ∧
    (2352 ≤ e.mmapSize.r1 →
      (main e).events.filter Event.isMmap =
        [Event.mmap 0 0x1000 (PROT_READ ||| PROT_WRITE) (MAP_SHARED ||| MAP_ANONYMOUS) 0 0,
         Event.mmap 0 e.mmapSize.r1 (PROT_READ ||| PROT_WRITE) MAP_SHARED
           (uintptrOfInt (intOfUintptr e.createVcpu.r1)) 0]) := by
  constructor
  · intro hs
    have hf : e.fails .mmapSize = true := by simp [Env.fails, hs]
    rw [main_fails e .mmapSize hr hf]
    simp [setupEvents, Step.eventsThrough, Env.diagnostic, Env.failCode, herr, FATAL, ioctlOps,
      diagnostics, Event.isDiagnostic, Event.isMmap, Event.ioctlOp, KVM_RUN, KVM_CREATE_VM,
      KVM_GET_API_VERSION, KVM_SET_USER_MEMORY_REGION, KVM_CREATE_VCPU, KVM_GET_VCPU_MMAP_SIZE]
  · intro hs
    have hr' : e.reaches .runMmap = true := by
      simp [Env.reaches, Step.all, Step.index, Env.fails] at hr ⊢
      simp [hr, herr, hs]
    obtain ⟨k, tail, hk, hk', hev, htail⟩ := main_trace e .runMmap hr'
    simp only [Step.eventsThrough] at hk
    rw [hev, List.filter_append, tail_filter_isMmap _ _ tail htail]
    interval_cases k <;> simp [setupEvents, Event.isMmap]

/-- C5. When the setup has gone through up to and including the get-segment-registers call,
exactly one set-segment-registers call is made, and the value it passes has `cs.base = 0`,
`cs.selector = 0` and every other field equal to the value read. -/
theorem C5_sregs_read_modify_write (e : Env) (hr : e.reaches .setSregs = true) :
    ∃ v, (main e).events.filterMap Event.sregsSet = [v] ∧
      v.cs.base = 0 ∧ v.cs.selector = 0 ∧
      v.cs.limit = e.sregsRead.cs.limit ∧ v.cs.tpe = e.sregsRead.cs.tpe ∧
      v.cs.present = e.sregsRead.cs.present ∧ v.cs.dpl = e.sregsRead.cs.dpl ∧
      v.cs.db = e.sregsRead.cs.db ∧ v.cs.s = e.sregsRead.cs.s ∧ v.cs.l = e.sregsRead.cs.l ∧
      v.cs.g = e.sregsRead.cs.g ∧ v.cs.avl = e.sregsRead.cs.avl ∧
      v.cs.unusable = e.sregsRead.cs.unusable ∧ v.cs.padding = e.sregsRead.cs.padding ∧
      v.ds = e.sregsRead.ds ∧ v.es = e.sregsRead.es ∧ v.fs = e.sregsRead.fs ∧
      v.gs = e.sregsRead.gs ∧ v.ss = e.sregsRead.ss ∧ v.tr = e.sregsRead.tr ∧
      v.ldt = e.sregsRead.ldt ∧ v.gdt = e.sregsRead.gdt ∧ v.idt = e.sregsRead.idt ∧
      v._cr0 = e.sregsRead._cr0 ∧ v.cr2 = e.sregsRead.cr2 ∧ v.cr3 = e.sregsRead.cr3 ∧
      v.cr4 = e.sregsRead.cr4 ∧ v.cr8 = e.sregsRead.cr8 ∧ v.efer = e.sregsRead.efer ∧
      v.apic_base = e.sregsRead.apic_base ∧
      v.interrupt_bitmap = e.sregsRead.interrupt_bitmap := by
  obtain ⟨k, tail, hk, hk', hev, htail⟩ := main_trace e .setSregs hr
  simp only [Step.eventsThrough] at hk
  refine ⟨{ e.sregsRead with cs := { e.sregsRead.cs with base := 0, selector := 0 } }, ?_, ?_⟩
  · rw [hev, List.filterMap_append, tail_sregsSet _ _ tail htail]
    interval_cases k <;>
      simp [setupEvents, Event.sregsSet, trickGo, uintptrOfInt, KVM_GET_SREGS, KVM_SET_SREGS,
        KVM_SET_REGS, KVM_CREATE_VM, KVM_GET_API_VERSION, KVM_SET_USER_MEMORY_REGION,
        KVM_CREATE_VCPU, KVM_GET_VCPU_MMAP_SIZE]
  · simp


/-- C6. When the setup has gone through up to the set-registers call, exactly one
set-registers call is made; no resume precedes it; the memory region installed before it
holds the copied payload; and the value written has `rip` equal to that region's guest physical
address `0x1000`, `rflags = 0x2`, `rax = 2`, `rbx = 2` and every other register 0. -/
theorem C6_initial_registers (e : Env) (hr : e.reaches .setRegs = true) :
    ∃ pre post region regs,
      (main e).events =
        pre ++ Event.ioctl e.createVcpu.r1 KVM_SET_REGS (Arg.regs regs) :: post ∧
      KVM_RUN ∉ ioctlOps pre ∧
      pre.filterMap Event.regionSet = [region] ∧
      Event.memcpy region.userspace_addr e.codeAddr code.length ∈ pre ∧
      (main e).events.filterMap Event.regsSet = [regs] ∧
      regs.rip = region.guest_phys_addr ∧ regs.rip = 0x1000 ∧ regs.rflags = 0x2 ∧
      regs.rax = 2 ∧ regs.rbx = 2 ∧
      regs.rcx = 0 ∧ regs.rdx = 0 ∧ regs.rsi = 0 ∧ regs.rdi = 0 ∧ regs.rsp = 0 ∧ regs.rbp = 0 ∧
      regs.r8 = 0 ∧ regs.r9 = 0 ∧ regs.r10 = 0 ∧ regs.r11 = 0 ∧ regs.r12 = 0 ∧ regs.r13 = 0 ∧
      regs.r14 = 0 ∧ regs.r15 = 0 := by
  obtain ⟨k, tail, hk, hk', hev, htail⟩ := main_trace e .setRegs hr
  simp only [Step.eventsThrough] at hk
  have hk12 : k = 12 := le_antisymm hk' hk
  subst hk12
  refine ⟨(setupEvents e).take 11, tail, ⟨0, 0, 0x1000, 0x1000, e.hostMmap.r1⟩,
    ⟨2, 2, 0, 0, 0, 0, 0, 0, 0, 0, 0, 0, 0, 0, 0, 0, 0x1000, 0x2⟩, ?_, ?_, ?_, ?_, ?_, ?_⟩
  · rw [hev]; simp [setupEvents]
  · simp [setupEvents, ioctlOps, Event.ioctlOp, trickGo, uintptrOfInt, KVM_GET_SREGS,
      KVM_SET_SREGS, KVM_RUN, KVM_CREATE_VM, KVM_GET_API_VERSION, KVM_SET_USER_MEMORY_REGION,
      KVM_CREATE_VCPU, KVM_GET_VCPU_MMAP_SIZE]
  · simp [setupEvents, Event.regionSet, trickGo, uintptrOfInt, KVM_GET_SREGS,
      KVM_SET_SREGS, KVM_RUN, KVM_CREATE_VM, KVM_GET_API_VERSION, KVM_SET_USER_MEMORY_REGION,
      KVM_CREATE_VCPU, KVM_GET_VCPU_MMAP_SIZE]
  · simp [setupEvents, code]
  · rw [hev, List.filterMap_append, tail_regsSet _ _ tail htail]
    simp [setupEvents, Event.regsSet, trickGo, uintptrOfInt, KVM_GET_SREGS, KVM_SET_REGS,
      KVM_SET_SREGS, KVM_RUN, KVM_CREATE_VM, KVM_GET_API_VERSION, KVM_SET_USER_MEMORY_REGION,
      KVM_CREATE_VCPU, KVM_GET_VCPU_MMAP_SIZE]
  · simp

theorem setupOk_loop (e : Env) (l : List (Sys × Int)) :
    Env.setupOk { e with loop := l } = e.setupOk := by
  simp [Env.setupOk, Step.all, Env.fails]

/-- C4. Once the setup is complete and the earlier resumes went through, a resume that returns a
non-zero errno or the all-ones word `trickGo(-1) = 2^64 - 1` ends the run with a failure: the trace
is that of the earlier iterations followed by this resume call and the `KVM_RUN` diagnostic, with
no handler call for this iteration and no later resume. -/
theorem C4_resume_failure_is_fatal (e : Env) (pre rest : List (Sys × Int)) (res : Sys)
    (ret : Int) (hsetup : e.setupOk = true)
    (hloop : e.loop = pre ++ (res, ret) :: rest)
    (hpre : ∀ p ∈ pre, ¬ (p.1.errno ≠ 0 ∨ p.1.r1 = 2 ^ 64 - 1))
    (hfail : res.errno ≠ 0 ∨ res.r1 = 2 ^ 64 - 1) :
    trickGo (-1) = 2 ^ 64 - 1 ∧
    (main e).status = Status.exited 1 ∧
    (main e).events =
      (main { e with loop := pre }).events ++
        [Event.ioctl e.createVcpu.r1 KVM_RUN Arg.zero, Event.fatalf "KVM_RUN" []] := by
  have htrick : trickGo (-1) = 2 ^ 64 - 1 := by decide
  refine ⟨htrick, ?_⟩
  have hpre' : ∀ p ∈ pre, ¬ (p.1.errno ≠ 0 ∨ p.1.r1 = trickGo (-1)) := by
    rw [htrick]; exact hpre
  have hfail' : (res, ret).1.errno ≠ 0 ∨ (res, ret).1.r1 = trickGo (-1) := by
    rw [htrick]; exact hfail
  have hbody := loopBody_fatal e.createVcpu.r1 e.runMmap.r1 (res, ret) hfail'
  have hcons : runLoop e.createVcpu.r1 e.runMmap.r1 ((res, ret) :: rest) =
      ([Event.ioctl e.createVcpu.r1 KVM_RUN Arg.zero, Event.fatalf "KVM_RUN" []],
        Status.exited FATAL) := by
    rw [runLoop_cons_exited _ _ _ _ FATAL (by rw [hbody]), hbody]
  rw [main_setupOk e hsetup, main_setupOk { e with loop := pre } (by rw [setupOk_loop]; exact hsetup),
    hloop, runLoop_append _ _ pre _ hpre', hcons]
  simp [FATAL, setupEvents]


/-- C1 (the code at the failing input). With a complete setup, a first resume that succeeds and
a handler result of 0, the program prints its "done" line and resumes the vCPU again; it is still
in the loop after the second such answer. No run at all ends with exit code 0. -/
theorem C1_loop_resumes_after_done :
    goodEnv.setupOk = true ∧
    goodEnv.loop = [(⟨0, 0⟩, 0), (⟨0, 0⟩, 0)] ∧
    (main goodEnv).events.drop 12 =
      [Event.ioctl 5 KVM_RUN Arg.zero, Event.myhandler 0x7f0000001000,
       Event.println "We are done apparently?",
       Event.ioctl 5 KVM_RUN Arg.zero, Event.myhandler 0x7f0000001000,
       Event.println "We are done apparently?"] ∧
    (main goodEnv).status = Status.running ∧
    ∀ e : Env, (main e).status ≠ Status.exited 0 := by
  refine ⟨by decide, rfl, by decide, by decide, ?_⟩
  intro e
  rcases main_status e with h | h | h <;> rw [h] <;> simp [FATAL, PANIC]

/-- The version-mismatch message starts with the word `KVM_GET_API_VERSION`, whatever the
version printed after it. -/
theorem apiVersion_message_named (v : Nat) :
    namesStep Step.apiVersion
      (Event.fatalf "KVM_GET_API_VERSION %d, expected 12\n" [FmtArg.word v]) = true := by
  have h : splitWords
      (Event.fatalf "KVM_GET_API_VERSION %d, expected 12\n" [FmtArg.word v]).text.toList [] =
      "KVM_GET_API_VERSION".toList ::
        splitWords ((toString v).toList ++ ", expected 12\n".toList) [] := rfl
  rw [namesStep, h, List.any_cons]
  have h' : (Step.apiVersion.names.any fun nm =>
      decide (nm.toList = "KVM_GET_API_VERSION".toList)) = true := by decide
  rw [h', Bool.true_or]

/-- C7 (counterexample). Three failing setup steps whose one diagnostic does not name the step.
When the host-buffer mapping fails with `ENOMEM` the message printed is
`Oups 18446744073709551615 - 12`; when the memory-region install fails with `EINVAL` it is
`Ioctl failed invalid argument 18446744073709551615`; when the device is missing it is the
system's `no such file or directory`. None of their words is a name of the failed step. -/
theorem C7_failure_messages_unnamed :
    (noMemoryEnv.reaches Step.hostMmap = true ∧ noMemoryEnv.fails Step.hostMmap = true ∧
      diagnostics (main noMemoryEnv).events =
        [Event.fatalf "Oups %d - %d\n"
          [FmtArg.word (2 ^ 64 - 1), FmtArg.errno 12 "cannot allocate memory"]] ∧
      (diagnostics (main noMemoryEnv).events).map Event.text =
        ["Oups 18446744073709551615 - 12\n"] ∧
      ¬ ∃ d ∈ diagnostics (main noMemoryEnv).events, namesStep Step.hostMmap d = true) ∧
    (badRegionEnv.reaches Step.setRegion = true ∧ badRegionEnv.fails Step.setRegion = true ∧
      diagnostics (main badRegionEnv).events =
        [Event.fatalf "Ioctl failed %v %v\n"
          [FmtArg.errno 22 "invalid argument", FmtArg.word (2 ^ 64 - 1)]] ∧
      (diagnostics (main badRegionEnv).events).map Event.text =
        ["Ioctl failed invalid argument 18446744073709551615\n"] ∧
      ¬ ∃ d ∈ diagnostics (main badRegionEnv).events, namesStep Step.setRegion d = true) ∧
    (noDeviceEnv.reaches Step.deviceOpen = true ∧ noDeviceEnv.fails Step.deviceOpen = true ∧
      diagnostics (main noDeviceEnv).events = [Event.goPanic "no such file or directory"] ∧
      (diagnostics (main noDeviceEnv).events).map Event.text = ["no such file or directory"] ∧
      ¬ ∃ d ∈ diagnostics (main noDeviceEnv).events, namesStep Step.deviceOpen d = true) := by
  have h1 : diagnostics (main noMemoryEnv).events =
      [Event.fatalf "Oups %d - %d\n"
        [FmtArg.word (2 ^ 64 - 1), FmtArg.errno 12 "cannot allocate memory"]] := by decide
  have h2 : diagnostics (main badRegionEnv).events =
      [Event.fatalf "Ioctl failed %v %v\n"
        [FmtArg.errno 22 "invalid argument", FmtArg.word (2 ^ 64 - 1)]] := by decide
  have h3 : diagnostics (main noDeviceEnv).events =
      [Event.goPanic "no such file or directory"] := by decide
  refine ⟨⟨by decide, by decide, h1, ?_, ?_⟩, ⟨by decide, by decide, h2, ?_, ?_⟩,
    ⟨by decide, by decide, h3, ?_, ?_⟩⟩
  · rw [h1]; decide
  · rw [h1]; decide
  · rw [h2]; decide
  · rw [h2]; decide
  · rw [h3]; decide
  · rw [h3]; decide

/-- C7 (amended). When `s` is the first setup step to fail, `main` leaves with a non-zero exit
code; its kernel calls are exactly those of the steps up to and including `s`; exactly one
diagnostic is emitted and it is the last event. Unless the failure is an errno of the
API-version query, the diagnostic is the step's fixed message (`Env.diagnostic`), and its printed
text names the step for every step but the device open (the system's error text), the
host-buffer mapping (`Oups`) and the region install (`Ioctl failed`). -/
theorem C7_setup_failure_is_fatal (e : Env) (s : Step) (hr : e.reaches s = true)
    (hf : e.fails s = true) :
    (∃ c, c ≠ 0 ∧ (main e).status = Status.exited c) ∧
    kernelCalls (main e).events = (kernelCalls (setupEvents e)).take (s.index + 1) ∧
    (kernelCalls (main e).events).length = s.index + 1 ∧
    (∃ d, diagnostics (main e).events = [d] ∧ (main e).events.getLast? = some d ∧
      (¬ (s = Step.apiVersion ∧ e.apiVersion.errno ≠ 0) →
        d = e.diagnostic s ∧
        (s ≠ Step.deviceOpen → s ≠ Step.hostMmap → s ≠ Step.setRegion →
          namesStep s d = true))) := by
  rw [main_fails e s hr hf]
  refine ⟨⟨e.failCode s, ?_, rfl⟩, ?_, ?_, e.diagnostic s, ?_, ?_, ?_⟩
  · rcases failCode_cases e s with h | h <;> rw [h] <;> simp [FATAL, PANIC]
  · simp only [kernelCalls, List.filter_append]
    have : [e.diagnostic s].filter Event.isKernelCall = [] := by
      have hd := diagnostic_isDiagnostic e s
      cases hdd : e.diagnostic s <;> rw [hdd] at hd <;> simp [Event.isDiagnostic] at hd <;>
        simp [Event.isKernelCall]
    rw [this]
    cases s <;> simp [setupEvents, Step.eventsThrough, Step.index, Event.isKernelCall]
  · simp only [kernelCalls, List.filter_append]
    have : [e.diagnostic s].filter Event.isKernelCall = [] := by
      have hd := diagnostic_isDiagnostic e s
      cases hdd : e.diagnostic s <;> rw [hdd] at hd <;> simp [Event.isDiagnostic] at hd <;>
        simp [Event.isKernelCall]
    rw [this]
    cases s <;> simp [setupEvents, Step.eventsThrough, Step.index, Event.isKernelCall]
  · simp only [diagnostics, List.filter_append]
    have : [e.diagnostic s].filter Event.isDiagnostic = [e.diagnostic s] := by
      simp [diagnostic_isDiagnostic e s]
    rw [this]
    cases s <;> simp [setupEvents, Step.eventsThrough, Event.isDiagnostic]
  · simp
  · intro hne
    refine ⟨rfl, ?_⟩
    intro h1 h2 h3
    cases s <;> simp at h1 h2 h3
    case apiVersion =>
      have h0 : e.apiVersion.errno = 0 := by
        by_contra hc; exact hne ⟨rfl, hc⟩
      simp only [Env.diagnostic, h0, ne_eq, not_true_eq_false, if_false]
      exact apiVersion_message_named e.apiVersion.r1
    case mmapSize =>
      simp only [Env.diagnostic]
      split_ifs <;> decide
    all_goals
      simp only [Env.diagnostic]
      decide


/-- Every command code `main` passes to `ioctl` is one of the nine of the source. -/
theorem main_ioctlOps (e : Env) (op : Nat) (h : op ∈ ioctlOps (main e).events) :
    op ∈ [KVM_GET_API_VERSION, KVM_CREATE_VM, KVM_GET_VCPU_MMAP_SIZE, KVM_CREATE_VCPU, KVM_RUN,
      KVM_SET_USER_MEMORY_REGION, trickGo KVM_GET_SREGS, KVM_SET_SREGS, KVM_SET_REGS] := by
  have hr : e.reaches Step.deviceOpen = true := by simp [Env.reaches, Step.all, Step.index]
  obtain ⟨k, tail, -, -, hev, htail⟩ := main_trace e Step.deviceOpen hr
  rw [hev, ioctlOps, List.filterMap_append, List.mem_append] at h
  rcases h with h | h
  · obtain ⟨ev, hmem, hop⟩ := List.mem_filterMap.mp h
    have hmem' := List.mem_of_mem_take hmem
    simp only [setupEvents, List.mem_cons, List.mem_singleton, List.not_mem_nil, or_false] at hmem'
    rcases hmem' with h' | h' | h' | h' | h' | h' | h' | h' | h' | h' | h' | h' <;>
      subst h' <;> simp [Event.ioctlOp] at hop <;> subst hop <;> simp
  · obtain ⟨ev, hmem, hop⟩ := List.mem_filterMap.mp h
    rcases (tail_observers _ _ ev (htail ev hmem)).2.2.2.2 with h' | h'
    · rw [h'] at hop; simp at hop
    · rw [h'] at hop
      simp at hop
      subst hop
      simp

theorem kvm_userspace_memory_region_layout :
    kvm_userspace_memory_region.layout = ⟨32, 8⟩ := rfl

theorem kvm_segment_layout : kvm_segment.layout = ⟨24, 8⟩ := rfl

theorem kvm_dtable_layout : kvm_dtable.layout = ⟨16, 8⟩ := rfl

theorem kvm_sregs_layout : kvm_sregs.layout = ⟨312, 8⟩ := by
  simp [kvm_sregs.layout, kvm_segment_layout, kvm_dtable_layout, Layout.struct, Layout.place,
    Layout.array, Layout.uint64, alignUp, KVM_NR_INTERRUPTS]

theorem kvm_regs_layout : kvm_regs.layout = ⟨144, 8⟩ := rfl

/-- C8. Struct sizes by the layout rules are 32, 312 and 144 bytes, and each of the nine
command codes of `main`, reduced modulo `2^32`, is the ABI encoding of its direction, argument
size and number; a complete run passes exactly these codes, and no run passes any other. -/
theorem C8_command_codes_match_abi :
    kvm_userspace_memory_region.layout.size = 32 ∧
    kvm_sregs.layout.size = 312 ∧
    kvm_regs.layout.size = 144 ∧
    KVM_GET_API_VERSION % 2 ^ 32 = abiEncoding IocDir.none 0 0x00 ∧
    KVM_CREATE_VM % 2 ^ 32 = abiEncoding IocDir.none 0 0x01 ∧
    KVM_GET_VCPU_MMAP_SIZE % 2 ^ 32 = abiEncoding IocDir.none 0 0x04 ∧
    KVM_CREATE_VCPU % 2 ^ 32 = abiEncoding IocDir.none 0 0x41 ∧
    KVM_RUN % 2 ^ 32 = abiEncoding IocDir.none 0 0x80 ∧
    KVM_SET_USER_MEMORY_REGION % 2 ^ 32 =
      abiEncoding IocDir.write kvm_userspace_memory_region.layout.size 0x46 ∧
    trickGo KVM_GET_SREGS % 2 ^ 32 = abiEncoding IocDir.read kvm_sregs.layout.size 0x83 ∧
    KVM_SET_SREGS % 2 ^ 32 = abiEncoding IocDir.write kvm_sregs.layout.size 0x84 ∧
    KVM_SET_REGS % 2 ^ 32 = abiEncoding IocDir.write kvm_regs.layout.size 0x82 ∧
    ioctlOps (main goodEnv).events =
      [KVM_GET_API_VERSION, KVM_CREATE_VM, KVM_SET_USER_MEMORY_REGION, KVM_CREATE_VCPU,
       KVM_GET_VCPU_MMAP_SIZE, trickGo KVM_GET_SREGS, KVM_SET_SREGS, KVM_SET_REGS,
       KVM_RUN, KVM_RUN] ∧
    ∀ e : Env, (ioctlOps (main e).events).all (fun op =>
      decide (op ∈ [KVM_GET_API_VERSION, KVM_CREATE_VM, KVM_GET_VCPU_MMAP_SIZE, KVM_CREATE_VCPU,
        KVM_RUN, KVM_SET_USER_MEMORY_REGION, trickGo KVM_GET_SREGS, KVM_SET_SREGS,
        KVM_SET_REGS])) = true := by
  rw [kvm_userspace_memory_region_layout, kvm_sregs_layout, kvm_regs_layout]
  refine ⟨rfl, rfl, rfl, by decide, by decide, by decide, by decide, by decide,
    by decide, by decide, by decide, by decide, by decide, ?_⟩
  intro e
  rw [List.all_eq_true]
  intro op hop
  exact decide_eq_true (main_ioctlOps e op hop)

/-- C9 (counterexample). The code passed at the get-segment-registers call of a complete run is
the 64-bit word `2^64 - 2126991741`, which is not below `2^32`. -/
theorem C9_get_sregs_code_not_32_bit :
    trickGo KVM_GET_SREGS ∈ ioctlOps (main goodEnv).events ∧
    trickGo KVM_GET_SREGS = 2 ^ 64 - 2126991741 ∧
    ¬ trickGo KVM_GET_SREGS < 2 ^ 32 := by
  refine ⟨by decide, by decide, by decide⟩

/-- C9 (amended). Every command code `main` passes to `ioctl` is below `2^32`, except the
get-segment-registers code: that one is the sign-extended word `2^64 - 2126991741`, whose low
32 bits are the 32-bit code `0x8138AE83`. -/
theorem C9_command_code_width (e : Env) (op : Nat) (h : op ∈ ioctlOps (main e).events) :
    op < 2 ^ 32 ∨
    (op = trickGo KVM_GET_SREGS ∧ op = 2 ^ 64 - 2126991741 ∧ op % 2 ^ 32 = 0x8138AE83) := by
  have hmem := main_ioctlOps e op h
  simp only [List.mem_cons, List.mem_singleton, List.not_mem_nil, or_false] at hmem
  rcases hmem with h' | h' | h' | h' | h' | h' | h' | h' | h'
  case inr.inr.inr.inr.inr.inr.inl =>
    right
    rw [h']
    exact ⟨rfl, by decide, by decide⟩
  all_goals
    left
    rw [h']
    decide



/-- C10. `memcpy` on a byte-addressed memory, for a size that fits a platform word.
With `dest = 0` or `src = 0` it panics and no byte is written. With both non-zero, every source
byte readable, every destination byte writable and the addresses written disjoint from the
addresses read (pointer arithmetic is modulo `2^64`), it returns, the byte at `dest + i` is the
old byte at `src + i` for every `i < n`, and every byte at an address not written is unchanged;
for ranges inside the address space this is the statement for the intervals `[dest, dest + n)`
and `[src, src + n)`. With a source byte that cannot be read or a destination byte that cannot
be written the process dies on a fault instead, and bytes outside the destination are still
unchanged. In `main`, once the host buffer of `0x1000` bytes is mapped, the call is
`memcpy(mem, &code[0], 12)` with both pointers non-zero, so with the buffer writable and `code`
readable the twelve bytes of `code` land at offsets 0..11 of the buffer. -/
theorem C10_memcpy_copies_payload (m : Mem) (dest src n : Nat) (e : Env) (hn : n < WORD) :
    ((dest = 0 ∨ src = 0) →
      (memcpy m dest src n).outcome = CopyOutcome.panicked "nil argument to copy" ∧
      (memcpy m dest src n).mem.byte = m.byte) ∧
    (dest ≠ 0 → src ≠ 0 →
      (∀ i, i < n → m.readable ((src + i) % WORD) = true) →
      (∀ i, i < n → m.writable ((dest + i) % WORD) = true) →
      (∀ i, i < n → ∀ j, j < n → (dest + i) % WORD ≠ (src + j) % WORD) →
      (memcpy m dest src n).outcome = CopyOutcome.returned ∧
      (∀ i, i < n →
        (memcpy m dest src n).mem.byte ((dest + i) % WORD) = m.byte ((src + i) % WORD)) ∧
      (∀ a, (∀ i, i < n → a ≠ (dest + i) % WORD) →
        (memcpy m dest src n).mem.byte a = m.byte a)) ∧
    (dest ≠ 0 → src ≠ 0 → dest + n ≤ WORD → src + n ≤ WORD →
      (∀ i, i < n → m.readable (src + i) = true) →
      (∀ i, i < n → m.writable (dest + i) = true) →
      (dest + n ≤ src ∨ src + n ≤ dest) →
      (memcpy m dest src n).outcome = CopyOutcome.returned ∧
      (∀ i, i < n → (memcpy m dest src n).mem.byte (dest + i) = m.byte (src + i)) ∧
      (∀ a, (a < dest ∨ dest + n ≤ a) → (memcpy m dest src n).mem.byte a = m.byte a)) ∧
    (dest ≠ 0 → src ≠ 0 →
      (∃ i, i < n ∧ (m.readable ((src + i) % WORD) = false ∨
        m.writable ((dest + i) % WORD) = false)) →
      (∃ a, (memcpy m dest src n).outcome = CopyOutcome.faulted a) ∧
      (∀ a, (∀ i, i < n → a ≠ (dest + i) % WORD) →
        (memcpy m dest src n).mem.byte a = m.byte a)) ∧
    (e.reaches Step.setRegion = true →
      Event.mmap 0 0x1000 (PROT_READ ||| PROT_WRITE) (MAP_SHARED ||| MAP_ANONYMOUS) 0 0
        ∈ (main e).events ∧
      Event.memcpy e.hostMmap.r1 e.codeAddr 12 ∈ (main e).events ∧
      e.hostMmap.r1 ≠ 0 ∧ e.codeAddr ≠ 0 ∧ code.length = 12 ∧
      ((∀ i, i < 12 → m.readable ((e.codeAddr + i) % WORD) = true ∧
          m.byte ((e.codeAddr + i) % WORD) = code.getD i 0) →
        (∀ i, i < 0x1000 → m.writable ((e.hostMmap.r1 + i) % WORD) = true) →
        (∀ i, i < 12 → ∀ j, j < 12 →
          (e.hostMmap.r1 + i) % WORD ≠ (e.codeAddr + j) % WORD) →
        (memcpy m e.hostMmap.r1 e.codeAddr 12).outcome = CopyOutcome.returned ∧
        ∀ i, i < 12 →
          (memcpy m e.hostMmap.r1 e.codeAddr 12).mem.byte ((e.hostMmap.r1 + i) % WORD) =
            code.getD i 0)) := by
  have hcopy : ∀ (m : Mem) (d s k : Nat), k < WORD → d ≠ 0 → s ≠ 0 →
      (∀ i, i < k → m.readable ((s + i) % WORD) = true) →
      (∀ i, i < k → m.writable ((d + i) % WORD) = true) →
      (∀ i, i < k → ∀ j, j < k → (d + i) % WORD ≠ (s + j) % WORD) →
      (memcpy m d s k).outcome = CopyOutcome.returned ∧
      (∀ i, i < k → (memcpy m d s k).mem.byte ((d + i) % WORD) = m.byte ((s + i) % WORD)) ∧
      (∀ a, (∀ i, i < k → a ≠ (d + i) % WORD) → (memcpy m d s k).mem.byte a = m.byte a) := by
    intro m d s k hk hd hs hr hw hdis
    have hg : ¬ (d = 0 ∨ s = 0) := by simp [hd, hs]
    simp only [memcpy, if_neg hg]
    refine ⟨?_, ?_, ?_⟩
    · exact memcpyLoop_returns d s k 0 m (by intro j hj; simpa using hr j hj)
        (by intro j hj; simpa using hw j hj)
    · intro i hi
      have := memcpyLoop_copy d s k 0 m (Nat.le_of_lt hk)
        (by intro j hj; simpa using hr j hj) (by intro j hj; simpa using hw j hj)
        (by intro a ha b hb; simpa using hdis a ha b hb) i hi
      simpa using this
    · intro a ha
      exact memcpyLoop_frame d s k 0 m a (by intro j hj; simpa using ha j hj)
  refine ⟨?_, hcopy m dest src n hn, ?_, ?_, ?_⟩
  · intro h
    simp [memcpy, h]
  · intro hd hs hdn hsn hr hw hdis
    have hmod : ∀ i, i < n → (dest + i) % WORD = dest + i ∧ (src + i) % WORD = src + i := by
      intro i hi
      exact ⟨Nat.mod_eq_of_lt (by omega), Nat.mod_eq_of_lt (by omega)⟩
    obtain ⟨h1, h2, h3⟩ := hcopy m dest src n hn hd hs
      (by intro i hi; rw [(hmod i hi).2]; exact hr i hi)
      (by intro i hi; rw [(hmod i hi).1]; exact hw i hi)
      (by
        intro i hi j hj
        rw [(hmod i hi).1, (hmod j hj).2]
        omega)
    refine ⟨h1, ?_, ?_⟩
    · intro i hi
      have := h2 i hi
      rwa [(hmod i hi).1, (hmod i hi).2] at this
    · intro a ha
      apply h3
      intro i hi
      rw [(hmod i hi).1]
      omega
  · intro hd hs hbad
    have hg : ¬ (dest = 0 ∨ src = 0) := by simp [hd, hs]
    simp only [memcpy, if_neg hg]
    refine ⟨?_, ?_⟩
    · obtain ⟨i, hi, hb⟩ := hbad
      exact memcpyLoop_faults dest src n 0 m ⟨i, hi, by simpa using hb⟩
    · intro a ha
      exact memcpyLoop_frame dest src n 0 m a (by intro j hj; simpa using ha j hj)
  · intro hr
    obtain ⟨k, tail, hk, hk', hev, -⟩ := main_trace e Step.setRegion hr
    simp only [Step.eventsThrough] at hk
    have hmem : e.hostMmap.r1 ≠ 0 := by
      simp [Env.reaches, Step.all, Step.index, Env.fails] at hr
      exact hr.2.2.2.1
    refine ⟨?_, ?_, hmem, e.codeAddr_ne, rfl, ?_⟩
    · rw [hev]
      interval_cases k <;> simp [setupEvents]
    · rw [hev]
      interval_cases k <;> simp [setupEvents]
    · intro hsrc hbuf hdis
      obtain ⟨h1, h2, -⟩ := hcopy m e.hostMmap.r1 e.codeAddr 12 (by decide) hmem e.codeAddr_ne
        (fun i hi => (hsrc i hi).1) (fun i hi => hbuf i (by omega)) hdis
      refine ⟨h1, ?_⟩
      intro i hi
      rw [h2 i hi]
      exact (hsrc i hi).2

/-! # Instances -/

/-- Instance of C2: a kernel reporting version 11 stops the run before any VM is created; with version 12 the VM-creation call follows. -/
theorem C2_api_version_gate_witness :
    (oldApiEnv.openErr = none ∧ oldApiEnv.apiVersion.errno = 0 ∧ oldApiEnv.apiVersion.r1 ≠ 12 ∧
      (main oldApiEnv).status = Status.exited 1 ∧
      KVM_CREATE_VM ∉ ioctlOps (main oldApiEnv).events) ∧
    (goodEnv.openErr = none ∧ goodEnv.apiVersion.errno = 0 ∧ goodEnv.apiVersion.r1 = 12 ∧
      ∃ post, (main goodEnv).events =
        [Event.sysOpen "/dev/kvm" (O_RDWR ||| O_CLOEXEC) 0,
         Event.ioctl (uintptrOfInt goodEnv.openFd) KVM_GET_API_VERSION Arg.zero,
         Event.ioctl (uintptrOfInt goodEnv.openFd) KVM_CREATE_VM Arg.zero] ++ post) :=
  ⟨⟨rfl, rfl, by decide,
      ((C2_api_version_gate oldApiEnv rfl rfl).1 (by decide)).1,
      ((C2_api_version_gate oldApiEnv rfl rfl).1 (by decide)).2.2⟩,
    ⟨rfl, rfl, rfl, (C2_api_version_gate goodEnv rfl rfl).2 rfl⟩⟩

/-- Instance of C3: a run-state size of 2048 stops the run before any resume; a size of 12288 is mapped as it is. -/
theorem C3_run_state_size_gate_witness :
    (smallRunEnv.reaches Step.mmapSize = true ∧ smallRunEnv.mmapSize.errno = 0 ∧
      smallRunEnv.mmapSize.r1 < 2352 ∧
      (main smallRunEnv).status = Status.exited 1 ∧
      KVM_RUN ∉ ioctlOps (main smallRunEnv).events) ∧
    (goodEnv.reaches Step.mmapSize = true ∧ goodEnv.mmapSize.errno = 0 ∧
      2352 ≤ goodEnv.mmapSize.r1 ∧
      (main goodEnv).events.filter Event.isMmap =
        [Event.mmap 0 0x1000 (PROT_READ ||| PROT_WRITE) (MAP_SHARED ||| MAP_ANONYMOUS) 0 0,
         Event.mmap 0 goodEnv.mmapSize.r1 (PROT_READ ||| PROT_WRITE) MAP_SHARED
           (uintptrOfInt (intOfUintptr goodEnv.createVcpu.r1)) 0]) :=
  ⟨⟨by decide, rfl, by decide,
      ((C3_run_state_size_gate smallRunEnv (by decide) rfl).1 (by decide)).1,
      ((C3_run_state_size_gate smallRunEnv (by decide) rfl).1 (by decide)).2.2.2⟩,
    ⟨by decide, rfl, by decide,
      (C3_run_state_size_gate goodEnv (by decide) rfl).2 (by decide)⟩⟩

/-- Instance of C4: after one serviced exit, a resume returning `-1` with `EINTR` ends the run. -/
theorem C4_resume_failure_is_fatal_witness :
    interruptedEnv.setupOk = true ∧
    interruptedEnv.loop = [(⟨0, 0⟩, 1)] ++ (⟨2 ^ 64 - 1, 4⟩, 0) :: [(⟨0, 0⟩, 0)] ∧
    (main interruptedEnv).status = Status.exited 1 ∧
    (main interruptedEnv).events =
      (main { interruptedEnv with loop := [(⟨0, 0⟩, 1)] }).events ++
        [Event.ioctl interruptedEnv.createVcpu.r1 KVM_RUN Arg.zero, Event.fatalf "KVM_RUN" []] :=
  ⟨by decide, rfl,
    (C4_resume_failure_is_fatal interruptedEnv [(⟨0, 0⟩, 1)] [(⟨0, 0⟩, 0)] ⟨2 ^ 64 - 1, 4⟩ 0
      (by decide) rfl (by decide) (by decide)).2⟩

/-- Instance of C5: the reset segment state with `cs.base = 0xffff0000` and `cs.selector = 0xf000` is written back with both cleared. -/
theorem C5_sregs_read_modify_write_witness :
    goodEnv.reaches Step.setSregs = true ∧
    goodEnv.sregsRead.cs.base = 0xffff0000 ∧ goodEnv.sregsRead.cs.selector = 0xf000 ∧
    ∃ v, (main goodEnv).events.filterMap Event.sregsSet = [v] ∧
      v.cs.base = 0 ∧ v.cs.selector = 0 ∧ v.cs.limit = goodEnv.sregsRead.cs.limit ∧
      v.ds = goodEnv.sregsRead.ds ∧ v.apic_base = goodEnv.sregsRead.apic_base := by
  obtain ⟨v, h⟩ := C5_sregs_read_modify_write goodEnv (by decide)
  exact ⟨by decide, rfl, rfl, v, h.1, h.2.1, h.2.2.1, h.2.2.2.1,
    h.2.2.2.2.2.2.2.2.2.2.2.2.2.2.1, h.2.2.2.2.2.2.2.2.2.2.2.2.2.2.2.2.2.2.2.2.2.2.2.2.2.2.2.2.2.1⟩

/-- Instance of C6: the registers written in a complete run. -/
theorem C6_initial_registers_witness :
    goodEnv.reaches Step.setRegs = true ∧
    ∃ regs, (main goodEnv).events.filterMap Event.regsSet = [regs] ∧
      regs.rip = 0x1000 ∧ regs.rflags = 0x2 ∧ regs.rax = 2 ∧ regs.rbx = 2 ∧ regs.rsp = 0 := by
  obtain ⟨pre, post, region, regs, h⟩ := C6_initial_registers goodEnv (by decide)
  exact ⟨by decide, regs, h.2.2.2.2.1, h.2.2.2.2.2.2.1, h.2.2.2.2.2.2.2.1, h.2.2.2.2.2.2.2.2.1,
    h.2.2.2.2.2.2.2.2.2.1, h.2.2.2.2.2.2.2.2.2.2.2.2.2.2.1⟩

/-- Instance of C7 (amended): a failing vCPU creation (`EMFILE`) ends the run after six kernel
calls with the one message `Error KVM_CREATE_VCPU`, which names the step. -/
theorem C7_setup_failure_is_fatal_witness :
    noVcpuEnv.reaches Step.createVcpu = true ∧ noVcpuEnv.fails Step.createVcpu = true ∧
    (∃ c, c ≠ 0 ∧ (main noVcpuEnv).status = Status.exited c) ∧
    (kernelCalls (main noVcpuEnv).events).length = Step.createVcpu.index + 1 ∧
    ∃ d, diagnostics (main noVcpuEnv).events = [d] ∧
      (main noVcpuEnv).events.getLast? = some d ∧
      d = Event.fatalf "Error KVM_CREATE_VCPU\n" [] ∧
      namesStep Step.createVcpu d = true := by
  have h := C7_setup_failure_is_fatal noVcpuEnv Step.createVcpu (by decide) (by decide)
  obtain ⟨d, hd, hlast, hrest⟩ := h.2.2.2
  have hmsg := hrest (by decide)
  exact ⟨by decide, by decide, h.1, h.2.2.1, d, hd, hlast, hmsg.1,
    hmsg.2 (by decide) (by decide) (by decide)⟩

/-- Instance of C9 (amended): the set-segment-registers code of a complete run. -/
theorem C9_command_code_width_witness :
    KVM_SET_SREGS ∈ ioctlOps (main goodEnv).events ∧
    (KVM_SET_SREGS < 2 ^ 32 ∨
      (KVM_SET_SREGS = trickGo KVM_GET_SREGS ∧ KVM_SET_SREGS = 2 ^ 64 - 2126991741 ∧
        KVM_SET_SREGS % 2 ^ 32 = 0x8138AE83)) :=
  ⟨by decide, C9_command_code_width goodEnv KVM_SET_SREGS (by decide)⟩

/-- Instance of C10: a nil destination panics; twelve bytes are copied from the data area into
the mapped page; a destination at the top of the address space, which is not mapped, ends in a
fault; a complete run copies the payload into the mapped buffer. -/
theorem C10_memcpy_copies_payload_witness :
    ((memcpy rampMem 0 0x500000 12).outcome = CopyOutcome.panicked "nil argument to copy" ∧
      (memcpy rampMem 0 0x500000 12).mem.byte = rampMem.byte) ∧
    ((0x7f0000000000 : Nat) ≠ 0 ∧ (0x500000 : Nat) ≠ 0 ∧
      (∀ i, i < 12 → rampMem.readable (0x500000 + i) = true) ∧
      (∀ i, i < 12 → rampMem.writable (0x7f0000000000 + i) = true) ∧
      (0x500000 + 12 ≤ 0x7f0000000000) ∧
      (memcpy rampMem 0x7f0000000000 0x500000 12).outcome = CopyOutcome.returned ∧
      (∀ i, i < 12 →
        (memcpy rampMem 0x7f0000000000 0x500000 12).mem.byte (0x7f0000000000 + i) =
          rampMem.byte (0x500000 + i)) ∧
      (∀ i, i < 12 →
        (memcpy rampMem 0x7f0000000000 0x500000 12).mem.byte ((0x7f0000000000 + i) % WORD) =
          rampMem.byte ((0x500000 + i) % WORD))) ∧
    (rampMem.writable ((2 ^ 64 - 2 + 0) % WORD) = false ∧
      ∃ a, (memcpy rampMem (2 ^ 64 - 2) 0x500000 4).outcome = CopyOutcome.faulted a) ∧
    (goodEnv.reaches Step.setRegion = true ∧
      Event.memcpy goodEnv.hostMmap.r1 goodEnv.codeAddr 12 ∈ (main goodEnv).events ∧
      (memcpy loadedMem goodEnv.hostMmap.r1 goodEnv.codeAddr 12).outcome =
        CopyOutcome.returned ∧
      ∀ i, i < 12 →
        (memcpy loadedMem goodEnv.hostMmap.r1 goodEnv.codeAddr 12).mem.byte
            ((goodEnv.hostMmap.r1 + i) % WORD) = code.getD i 0) := by
  have hr : ∀ i, i < 12 → rampMem.readable (0x500000 + i) = true := by decide
  have hw : ∀ i, i < 12 → rampMem.writable (0x7f0000000000 + i) = true := by decide
  have hrm : ∀ i, i < 12 → rampMem.readable ((0x500000 + i) % WORD) = true := by decide
  have hwm : ∀ i, i < 12 → rampMem.writable ((0x7f0000000000 + i) % WORD) = true := by decide
  have hdis : ∀ i, i < 12 → ∀ j, j < 12 →
      (0x7f0000000000 + i) % WORD ≠ (0x500000 + j) % WORD := by decide
  have hbad : rampMem.writable ((2 ^ 64 - 2 + 0) % WORD) = false := by decide
  have hcode : ∀ i, i < 12 → loadedMem.readable ((goodEnv.codeAddr + i) % WORD) = true ∧
      loadedMem.byte ((goodEnv.codeAddr + i) % WORD) = code.getD i 0 := by decide
  have hbuf : ∀ i, i < 0x1000 →
      loadedMem.writable ((goodEnv.hostMmap.r1 + i) % WORD) = true := by
    intro i hi
    have h1 : (goodEnv.hostMmap.r1 + i) % WORD = 0x7f0000000000 + i := by
      simp only [goodEnv, WORD]
      omega
    rw [h1]
    simp only [loadedMem, rampMem, Bool.or_eq_true, Bool.and_eq_true, decide_eq_true_eq]
    omega
  have hmain := (C10_memcpy_copies_payload loadedMem 0 0 0 goodEnv (by decide)).2.2.2.2
    (by decide)
  exact ⟨(C10_memcpy_copies_payload rampMem 0 0x500000 12 goodEnv (by decide)).1 (Or.inl rfl),
    ⟨by decide, by decide, hr, hw, by decide,
      ((C10_memcpy_copies_payload rampMem 0x7f0000000000 0x500000 12 goodEnv (by decide)).2.2.1
        (by decide) (by decide) (by decide) (by decide) hr hw (Or.inr (by decide))).1,
      ((C10_memcpy_copies_payload rampMem 0x7f0000000000 0x500000 12 goodEnv (by decide)).2.2.1
        (by decide) (by decide) (by decide) (by decide) hr hw (Or.inr (by decide))).2.1,
      ((C10_memcpy_copies_payload rampMem 0x7f0000000000 0x500000 12 goodEnv (by decide)).2.1
        (by decide) (by decide) hrm hwm hdis).2.1⟩,
    ⟨hbad,
      ((C10_memcpy_copies_payload rampMem (2 ^ 64 - 2) 0x500000 4 goodEnv (by decide)).2.2.2.1
        (by decide) (by decide) ⟨0, by decide, Or.inr hbad⟩).1⟩,
    ⟨by decide, hmain.2.1, (hmain.2.2.2.2.2 hcode hbuf (by decide)).1,
      (hmain.2.2.2.2.2 hcode hbuf (by decide)).2⟩⟩

end Govmm
